import Mathlib

/-!
Verification of the Velos-AI gated hiring pipeline and its trust layer.

This development gives a shallow embedding, in Lean 4, of the parts of the
repository that the specification's testable properties talk about:

* `src/utils/ledger_manager.py` — `LedgerManager` (canonical JSON hashing,
  block creation, integrity verification, audit-chain verification);
* `src/utils/diff_engine.py` — `DiffEngine.compute_diff`;
* `src/agents/agent_1_gatekeeper.py` — `BlindGatekeeper` (eligibility gate,
  token generation, gated PII processing);
* `src/agents/agent_2_validator.py` — `SkillValidator` (token validation,
  evidence-boosted scoring, missing-skill reclassification);
* `src/agents/orchestrator.py` — `VelosOrchestrator`
  (`run_verification_pipeline`, `evaluate_candidate_answers`).

Machine integers are modelled as `Nat`/`Int` with explicit truncation,
Python floats as `ℚ` (every quantity the theorems depend on is produced by
exact `+`, `min` and comparisons, where float and rational arithmetic
agree on the magnitudes involved), Python dict lookups with defaults as
`Option` with `getD`, and exceptions as `Except`.  SHA-256 is implemented
in full so hashes evaluate inside the kernel.  External collaborators
(language model, vector store, PII regexes, the diff-match-patch library
internals) are parameters of the embedding; the repository's own logic is
translated line by line.
-/

set_option maxRecDepth 10000

namespace Velos

/-! ## SHA-256 over byte lists -/

/-- Truncate a natural number to a 32-bit word, as unsigned word arithmetic does. -/
def w32 (n : Nat) : Nat := n % 4294967296

/-- Right rotation of a 32-bit word by `r` bits. -/
def rotr (r x : Nat) : Nat := w32 ((x >>> r) ||| (x <<< (32 - r)))

/-- SHA-256 round constants. -/
def shaK : List Nat :=
  [1116352408, 1899447441, 3049323471, 3921009573, 961987163, 1508970993,
   2453635748, 2870763221, 3624381080, 310598401, 607225278, 1426881987,
   1925078388, 2162078206, 2614888103, 3248222580, 3835390401, 4022224774,
   264347078, 604807628, 770255983, 1249150122, 1555081692, 1996064986,
   2554220882, 2821834349, 2952996808, 3210313671, 3336571891, 3584528711,
   113926993, 338241895, 666307205, 773529912, 1294757372, 1396182291,
   1695183700, 1986661051, 2177026350, 2456956037, 2730485921, 2820302411,
   3259730800, 3345764771, 3516065817, 3600352804, 4094571909, 275423344,
   430227734, 506948616, 659060556, 883997877, 958139571, 1322822218,
   1537002063, 1747873779, 1955562222, 2024104815, 2227730452, 2361852424,
   2428436474, 2756734187, 3204031479, 3329325298]

/-- SHA-256 initial hash state. -/
def shaH0 : List Nat :=
  [1779033703, 3144134277, 1013904242, 2773480762,
   1359893119, 2600822924, 528734635, 1541459225]

/-- Pad a byte message per SHA-256: append `0x80`, zeros, and the 64-bit big-endian bit length. -/
def shaPad (msg : List Nat) : List Nat :=
  let len := msg.length
  let bitLen := 8 * len
  let zeros := (119 - len % 64) % 64
  msg ++ [0x80] ++ List.replicate zeros 0 ++
    [(bitLen >>> 56) % 256, (bitLen >>> 48) % 256, (bitLen >>> 40) % 256, (bitLen >>> 32) % 256,
     (bitLen >>> 24) % 256, (bitLen >>> 16) % 256, (bitLen >>> 8) % 256, bitLen % 256]

/-- Split a list into chunks of `n` elements (fuel-driven so it reduces in the kernel). -/
def chunksAux (n : Nat) : Nat → List Nat → List (List Nat)
  | 0, _ => []
  | _, [] => []
  | fuel + 1, xs => xs.take n :: chunksAux n fuel (xs.drop n)

/-- Split a list into chunks of `n` elements. -/
def chunks (n : Nat) (xs : List Nat) : List (List Nat) := chunksAux n xs.length xs

/-- Combine four bytes into one big-endian 32-bit word. -/
def wordsBE : List Nat → List Nat
  | a :: b :: c :: d :: rest => (((a * 256 + b) * 256 + c) * 256 + d) :: wordsBE rest
  | _ => []

/-- Extend the 16-word block schedule by `k` further words. -/
def extendSchedule (ws : List Nat) : Nat → List Nat
  | 0 => ws
  | Nat.succ k =>
    let i := ws.length
    let w15 := ws.getD (i - 15) 0
    let w2 := ws.getD (i - 2) 0
    let s0 := (rotr 7 w15) ^^^ (rotr 18 w15) ^^^ (w15 >>> 3)
    let s1 := (rotr 17 w2) ^^^ (rotr 19 w2) ^^^ (w2 >>> 10)
    extendSchedule (ws ++ [w32 (ws.getD (i - 16) 0 + s0 + ws.getD (i - 7) 0 + s1)]) k

/-- One SHA-256 compression round on the 8-word working state. -/
def shaRound (st : List Nat) (kw : Nat × Nat) : List Nat :=
  match st with
  | [a, b, c, d, e, f, g, h] =>
    let s1 := (rotr 6 e) ^^^ (rotr 11 e) ^^^ (rotr 25 e)
    let ch := (e &&& f) ^^^ ((4294967295 - e) &&& g)
    let t1 := w32 (h + s1 + ch + kw.1 + kw.2)
    let s0 := (rotr 2 a) ^^^ (rotr 13 a) ^^^ (rotr 22 a)
    let mj := (a &&& b) ^^^ (a &&& c) ^^^ (b &&& c)
    let t2 := w32 (s0 + mj)
    [w32 (t1 + t2), a, b, c, w32 (d + t1), e, f, g]
  | _ => st

/-- Process one 64-byte block, updating the running hash state. -/
def shaBlock (h : List Nat) (block : List Nat) : List Nat :=
  let ws := extendSchedule (wordsBE block) 48
  let st := (shaK.zip ws).foldl (fun s kw => shaRound s kw) h
  (h.zip st).map (fun p => w32 (p.1 + p.2))

/-- SHA-256 digest of a byte message, as a list of eight 32-bit words. -/
def sha256Words (msg : List Nat) : List Nat :=
  (chunks 64 (shaPad msg)).foldl shaBlock shaH0

/-- Render a natural number as fixed-width lowercase hex. -/
def toHex (width n : Nat) : String :=
  let rec go : Nat → Nat → List Char
    | 0, _ => []
    | Nat.succ k, m => go k (m / 16) ++ [Nat.digitChar (m % 16)]
  String.mk (go width n)

/-- SHA-256 lowercase hex digest of a byte message. -/
def sha256Hex (msg : List Nat) : String :=
  String.join ((sha256Words msg).map (toHex 8))

/-- UTF-8 encoding of one character. -/
def utf8Char (c : Char) : List Nat :=
  let n := c.toNat
  if n < 0x80 then [n]
  else if n < 0x800 then [0xc0 ||| (n >>> 6), 0x80 ||| (n &&& 0x3f)]
  else if n < 0x10000 then
    [0xe0 ||| (n >>> 12), 0x80 ||| ((n >>> 6) &&& 0x3f), 0x80 ||| (n &&& 0x3f)]
  else
    [0xf0 ||| (n >>> 18), 0x80 ||| ((n >>> 12) &&& 0x3f), 0x80 ||| ((n >>> 6) &&& 0x3f),
     0x80 ||| (n &&& 0x3f)]

/-- UTF-8 bytes of a string. -/
def utf8Bytes (s : String) : List Nat := s.data.flatMap utf8Char

/-- Models `hashlib.sha256(s.encode("utf-8")).hexdigest()`. -/
def sha256HexOfString (s : String) : String := sha256Hex (utf8Bytes s)

/-! ## String primitives

Python string slicing, case mapping, prefix tests and comparisons, defined
directly over the character list so they reduce inside the kernel. -/

/-- Python slicing `s[:n]`. -/
def strTake (s : String) (n : Nat) : String := ⟨s.data.take n⟩

/-- Uppercase one ASCII character (the strings the code uppercases are hex digests). -/
def asciiUpperChar (c : Char) : Char :=
  if 97 ≤ c.toNat ∧ c.toNat ≤ 122 then Char.ofNat (c.toNat - 32) else c

/-- Python `s.upper()` on the ASCII strings this program uppercases. -/
def strUpper (s : String) : String := ⟨s.data.map asciiUpperChar⟩

/-- Lowercase one ASCII character. -/
def asciiLowerChar (c : Char) : Char :=
  if 65 ≤ c.toNat ∧ c.toNat ≤ 90 then Char.ofNat (c.toNat + 32) else c

/-- Python `s.lower()` on the ASCII skill/project strings this program lowercases. -/
def strLower (s : String) : String := ⟨s.data.map asciiLowerChar⟩

/-- Python `s.startswith(pre)`. -/
def strStartsWith (s pre : String) : Bool := pre.data.isPrefixOf s.data

/-- Lexicographic comparison of character lists by code point, as Python
compares strings. -/
def charListLe : List Char → List Char → Bool
  | [], _ => true
  | _ :: _, [] => false
  | a :: as, b :: bs =>
    if a.toNat < b.toNat then true
    else if b.toNat < a.toNat then false
    else charListLe as bs

/-- Python `s <= t` on strings. -/
def strLe (s t : String) : Bool := charListLe s.data t.data

/-- Python `s < t` on strings. -/
def strLt (s t : String) : Bool := strLe s t && !(s == t)

/-! ## Canonical JSON serialization (`LedgerManager._canonicalize`)

`json.dumps(data, sort_keys=True, separators=(",", ":"), default=str)` on a
flat dictionary of strings, integers, booleans, nulls and decimal numbers. -/

/-- JSON-serializable values appearing in decision snapshots. -/
inductive JVal
  | str (s : String)
  | int (n : Int)
  | bool (b : Bool)
  | null
  | num (q : ℚ)
deriving DecidableEq

/-- Decision snapshots are flat JSON objects: association lists of key/value pairs. -/
abbrev Snapshot := List (String × JVal)

/-- Escape one character per `json.dumps` with its default `ensure_ascii=True`. -/
def jsonEscapeChar (c : Char) : String :=
  let n := c.toNat
  if c = '"' then "\\\""
  else if c = '\\' then "\\\\"
  else if n = 10 then "\\n"
  else if n = 13 then "\\r"
  else if n = 9 then "\\t"
  else if n = 8 then "\\b"
  else if n = 12 then "\\f"
  else if 0x20 ≤ n ∧ n ≤ 0x7e then String.singleton c
  else if n < 0x10000 then "\\u" ++ toHex 4 n
  else
    let m := n - 0x10000
    "\\u" ++ toHex 4 (0xd800 + (m >>> 10)) ++ "\\u" ++ toHex 4 (0xdc00 + (m &&& 0x3ff))

/-- Serialize a JSON string literal. -/
def jsonString (s : String) : String :=
  "\"" ++ String.join (s.data.map jsonEscapeChar) ++ "\""

/-- Render a decimal fraction `q * 10^(-k)` with `k` digits after the point. -/
def decimalRepr (num : Int) (k : Nat) : String :=
  let sign := if num < 0 then "-" else ""
  let a := num.natAbs
  let p := 10 ^ k
  sign ++ toString (a / p) ++ "." ++
    (let digs := toString (p + a % p)
     digs.drop 1)

/-- Render a rational the way Python `json.dumps` renders the floats this
program produces (exact decimal fractions; integral floats keep a `.0`). -/
def jsonNum (q : ℚ) : String :=
  if q.den = 1 then toString q.num ++ ".0"
  else
    let k := (List.range 18).find? (fun k => (q * (10 : ℚ) ^ k).den = 1)
    match k with
    | some k => decimalRepr (q * (10 : ℚ) ^ k).num k
    | none => toString q.num ++ "/" ++ toString q.den

/-- Serialize one JSON value. -/
def jsonVal : JVal → String
  | .str s => jsonString s
  | .int n => toString n
  | .bool b => if b then "true" else "false"
  | .null => "null"
  | .num q => jsonNum q

/-- Stable insertion into a sorted list: the new element goes after existing
elements it ties with, matching Python's stable `sorted`. -/
def insertStable {α : Type} (le : α → α → Bool) (x : α) : List α → List α
  | [] => [x]
  | y :: ys => if le y x then y :: insertStable le x ys else x :: y :: ys

/-- Stable ascending sort, matching Python's `sorted(xs, key=...)`. -/
def sortStable {α : Type} (le : α → α → Bool) (xs : List α) : List α :=
  xs.foldl (fun acc x => insertStable le x acc) []

/-- Models `LedgerManager._canonicalize`: `json.dumps` with sorted keys and
`(",", ":")` separators. -/
def canonicalize (data : Snapshot) : String :=
  let sorted := sortStable (fun a b => strLe a.1 b.1) data
  "\x7b" ++ String.intercalate ","
    (sorted.map (fun kv => jsonString kv.1 ++ ":" ++ jsonVal kv.2)) ++ "\x7d"

/-- Models `LedgerManager._compute_hash`: SHA-256 of the canonical JSON, hex-encoded. -/
def computeHash (data : Snapshot) : String := sha256HexOfString (canonicalize data)

/-! ## LedgerManager blocks -/

/-- A ledger block, the output dictionary of `LedgerManager.create_block`
(the constant `metadata.algorithm`/`metadata.version` entries are carried by
`agentId` alone). -/
structure Block where
  blockId : String
  timestamp : String
  candidateId : String
  dataHash : String
  previousHash : String
  signature : String
  agentId : String
deriving DecidableEq, Repr

/-- Models `LedgerManager._sign_block`. -/
def signBlock (agentId blockId dataHash timestamp : String) : String :=
  let signData := blockId ++ ":" ++ dataHash ++ ":" ++ timestamp ++ ":" ++ agentId
  "SIG-" ++ agentId ++ "-" ++ strTake (sha256HexOfString signData) 32

/-- Models `LedgerManager.create_block`.  The source draws `block_id` from
`uuid.uuid4()` and `timestamp` from `datetime.utcnow()`; both are parameters
here.  An absent or empty previous hash becomes the `"GENESIS"` sentinel,
mirroring `previous_block_hash or "GENESIS"`. -/
def createBlock (agentId blockId timestamp candidateId : String)
    (decisionData : Snapshot) (previousBlockHash : Option String) : Block :=
  let dataHash := computeHash decisionData
  { blockId := blockId
    timestamp := timestamp
    candidateId := candidateId
    dataHash := dataHash
    previousHash :=
      match previousBlockHash with
      | some p => if p = "" then "GENESIS" else p
      | none => "GENESIS"
    signature := signBlock agentId blockId dataHash timestamp
    agentId := agentId }

/-- Models `LedgerManager.verify_integrity`: recompute the hash of the current
data and compare it with the hash stored in the block. -/
def verifyIntegrity (block : Block) (currentData : Snapshot) : Bool × String :=
  let originalHash := block.dataHash
  let currentHash := computeHash currentData
  if originalHash = currentHash then
    (true, "✅ VERIFIED: Data integrity confirmed. No tampering detected.")
  else
    (false, "🚨 TAMPERING DETECTED! Hash mismatch.\nOriginal: " ++ strTake originalHash 16 ++
      "...\nCurrent:  " ++ strTake currentHash 16 ++ "...")

/-- Return dictionary of `LedgerManager.create_audit_chain`. -/
structure ChainReport where
  valid : Bool
  message : String
  blocks : Nat
  issues : List String
deriving DecidableEq, Repr

/-- Linkage scan of `create_audit_chain` over the timestamp-sorted blocks:
index 0 must carry the `"GENESIS"` sentinel, each later block must link to its
predecessor's data hash. -/
def chainScan : Nat → Option Block → List Block → Bool × List String
  | _, _, [] => (true, [])
  | i, prev, b :: rest =>
    let here : Bool × List String :=
      match prev with
      | none =>
        if b.previousHash ≠ "GENESIS" then
          (false, ["Block " ++ toString i ++ ": Invalid genesis"])
        else (true, [])
      | some p =>
        if p.dataHash ≠ b.previousHash then
          (false, ["Block " ++ toString i ++ ": Chain broken"])
        else (true, [])
    let rest' := chainScan (i + 1) (some b) rest
    (here.1 && rest'.1, here.2 ++ rest'.2)

/-- Models `LedgerManager.create_audit_chain`: the blocks are first sorted by
timestamp (`sorted(blocks, key=lambda b: b.get("timestamp", ""))`) and only
then checked for genesis sentinel and adjacent hash linkage. -/
def createAuditChain (blocks : List Block) : ChainReport :=
  if blocks = [] then
    { valid := true, message := "Empty chain", blocks := 0, issues := [] }
  else
    let sortedBlocks := sortStable (fun a b => strLe a.timestamp b.timestamp) blocks
    let scan := chainScan 0 none sortedBlocks
    { valid := scan.1
      message := if scan.1 then "Chain verified" else "Chain broken"
      blocks := blocks.length
      issues := scan.2 }

/-! ## DiffEngine -/

/-- Diff operation kinds of the frontend-facing report. -/
inductive DiffType
  | equal
  | insert
  | delete
deriving DecidableEq, Repr

/-- One entry of the frontend-facing diff report. -/
structure DiffItem where
  type : DiffType
  text : String
deriving DecidableEq, Repr

/-- Raw diff tuple of the diff-match-patch library: `0` equal, `-1` delete, `1` insert. -/
abbrev RawDiff := Int × String

/-- Outer shell of the external diff-match-patch `diff_main`: equal inputs
short-circuit to a single equal span (empty equal inputs to no spans) before
any real diffing; the library's core algorithm, an external collaborator, is
the parameter `core`. -/
def diffMain (core : String → String → List RawDiff) (t1 t2 : String) : List RawDiff :=
  if t1 = t2 then (if t1 = "" then [] else [(0, t1)]) else core t1 t2

/-- Models `type_map.get(op_code, "equal")` of `DiffEngine._format_for_frontend`. -/
def typeMap (op : Int) : DiffType :=
  if op = 0 then .equal else if op = -1 then .delete
  else if op = 1 then .insert else .equal

/-- Models `DiffEngine._format_for_frontend`: drop empty spans, map op codes. -/
def formatForFrontend (raw : List RawDiff) : List DiffItem :=
  (raw.filter (fun p => p.2 ≠ "")).map (fun p => { type := typeMap p.1, text := p.2 })

/-- Models `DiffEngine.compute_diff`.  The semantic-cleanup pass
`diff_cleanupSemantic` (external library code, run on the raw diff before
formatting) is the parameter `cleanup`. -/
def computeDiff (core : String → String → List RawDiff)
    (cleanup : List RawDiff → List RawDiff)
    (originalText redactedText : String) : List DiffItem :=
  if originalText = "" ∧ redactedText = "" then []
  else if originalText = "" then [{ type := .insert, text := redactedText }]
  else if redactedText = "" then [{ type := .delete, text := originalText }]
  else formatForFrontend (cleanup (diffMain core originalText redactedText))

/-! ## Agent 1: BlindGatekeeper -/

/-- Clean (PII-free) candidate data extracted by Agent 1. -/
structure CleanData where
  skills : List String
  projects : List String
  educationLevel : List String
  certifications : List String
deriving DecidableEq, Repr

/-- Processing steps of `BlindGatekeeper.process`, recorded in execution order. -/
inductive GkOp
  | extractExperience
  | detectBias
  | redactPII
  | extractCleanData
  | generateToken
deriving DecidableEq, Repr

/-- Result dictionary of `BlindGatekeeper.process`.  Keys the FAIL branch does
not emit (`clean_data`, `clean_data_full_text`, `clean_token`,
`redaction_stats`) are `Option`s, `none` meaning the key is absent. -/
structure Agent1Result where
  status : String
  reason : String
  yearsExp : ℚ
  cleanData : Option CleanData
  cleanDataFullText : Option String
  cleanToken : Option String
  biasFlags : List String
  redactionStats : Option (List (String × Nat))
deriving DecidableEq, Repr

/-- External collaborators of Agent 1: the experience extractor's LLM/regex
machinery, the PII redactor, the structured extraction and bias-indicator
regexes, the wall-clock timestamp used inside the token, and the float
formatter used in reason strings. -/
structure GkEnv where
  extractYears : String → ℚ
  redactPII : String → String × List (String × Nat)
  extractCleanData : String → CleanData
  detectBias : String → List String
  timestamp : String
  fmt : ℚ → String

/-- Models `ExperienceExtractor.validate_experience` (`src/utils/experience_extractor.py`);
the `%.1f`-style float rendering inside the reason strings is the parameter `fmt`. -/
def validateExperience (fmt : ℚ → String) (years minimumRequired : ℚ) : Bool × String :=
  if years ≥ minimumRequired then
    (true, "✅ " ++ fmt years ++ " years experience meets requirement (" ++
      fmt minimumRequired ++ "y minimum)")
  else
    (false, "❌ " ++ fmt years ++ " years < " ++ fmt minimumRequired ++ " years required")

/-- Models `BlindGatekeeper.generate_clean_data_token`:
`"CLEAN-" + sha256(resume_hash:timestamp:GATEKEEPER_APPROVED:v1)[:16].upper()`. -/
def generateCleanDataToken (timestamp resumeHash : String) : String :=
  let tokenBase := resumeHash ++ ":" ++ timestamp ++ ":GATEKEEPER_APPROVED:v1"
  "CLEAN-" ++ strUpper (strTake (sha256HexOfString tokenBase) 16)

/-- Models `BlindGatekeeper.process`, additionally returning the list of
processing steps performed, in order. -/
def gatekeeperProcess (env : GkEnv) (rawResumeText : String) (minYears : ℚ) :
    Agent1Result × List GkOp :=
  let years := env.extractYears rawResumeText
  let ve := validateExperience env.fmt years minYears
  if ¬ ve.1 then
    ({ status := "FAIL", reason := ve.2, yearsExp := years, cleanData := none,
       cleanDataFullText := none, cleanToken := none, biasFlags := [],
       redactionStats := none },
     [.extractExperience])
  else
    let biasFlags := env.detectBias rawResumeText
    let rr := env.redactPII rawResumeText
    let cleanData := env.extractCleanData rawResumeText
    let resumeHash := sha256HexOfString rawResumeText
    let cleanToken := generateCleanDataToken env.timestamp resumeHash
    ({ status := "PASS",
       reason := "✅ Eligible: " ++ env.fmt years ++ "y experience, PII removed",
       yearsExp := years, cleanData := some cleanData,
       cleanDataFullText := some rr.1, cleanToken := some cleanToken,
       biasFlags := biasFlags, redactionStats := some rr.2 },
     [.extractExperience, .detectBias, .redactPII, .extractCleanData, .generateToken])

/-! ## Agent 2: SkillValidator -/

/-- Models `SkillValidator.validate_clean_token`: a purely structural check of
the emptiness, the `"CLEAN-"` marker and the exact total length 22. -/
def validateCleanToken (token : String) : Bool × String :=
  if token = "" then (false, "No token provided")
  else if ¬ strStartsWith token "CLEAN-" then
    (false, "Invalid token prefix (must start with CLEAN-)")
  else if token.length ≠ 22 then
    (false, "Invalid token length: " ++ toString token.length ++ " (expected 22)")
  else (true, "Token validated successfully")

/-- Evidence record of `SkillValidator._get_skill_evidence` (only the fields
the decision logic reads; snippets and citations are display payload). -/
structure Evidence where
  found : Bool
  confidence : ℚ
deriving DecidableEq, Repr

/-- Parsed job requirements (`SkillValidator.extract_job_requirements` output). -/
structure JdRequirements where
  requiredSkills : List String
  niceToHave : List String
  minYears : ℚ
  roleLevel : String
deriving DecidableEq, Repr

/-- Audit-log entry fields of `SkillValidator.process` the claims observe. -/
structure Agent2Audit where
  evidenceBoost : ℚ
  baseSkillScore : ℚ
  projectBonus : ℚ
  finalScore : ℚ
  matchedSkills : List String
  missingSkills : List String
deriving DecidableEq, Repr

/-- Result dictionary of `SkillValidator.process`.  Keys absent from the
invalid-token early return are `Option`s. -/
structure Agent2Result where
  status : String
  reason : String
  score : Int
  baseScore : Option Int
  projectBonus : Option Int
  evidenceBoost : Option Int
  missingSkills : Option (List String)
  matchedSkills : Option (List String)
  audit : Option Agent2Audit
deriving DecidableEq, Repr

/-- Python substring test (`pat in s`) on character lists. -/
def infixOf (pat : List Char) : List Char → Bool
  | [] => pat.isEmpty
  | c :: cs => pat.isPrefixOf (c :: cs) || infixOf pat cs

/-- Models the Python `in` operator on strings. -/
def strIn (pat s : String) : Bool := infixOf pat.data s.data

/-- Models `SkillValidator.calculate_project_bonus`: +3 per required skill
mentioned in the joined project text, +2 per project capped at 8, all capped
at 20. -/
def calculateProjectBonus (projects requiredSkills : List String) : ℚ :=
  if projects = [] then 0
  else
    let projectsText := strLower (String.intercalate " " projects)
    let bonus : ℚ := requiredSkills.foldl
      (fun b skill => if strIn (strLower skill) projectsText then b + 3 else b) 0
    let bonus := bonus + min ((projects.length : ℚ) * 2) 8
    min bonus 20

/-- Python `round` to the nearest integer, ties to even. -/
def pyRound (q : ℚ) : Int :=
  let f := q.floor
  let frac := q - f
  if frac < 1 / 2 then f
  else if frac > 1 / 2 then f + 1
  else if f % 2 = 0 then f else f + 1

/-- External collaborators of Agent 2: the LLM/regex job-description parser,
the embeddings-based similarity scorer (`calculate_semantic_score`, whose main
path calls an external sentence-transformer model), the configured pass
threshold (`self.pass_threshold`, 60 in the source) and the float formatter of
the reason strings. -/
structure ValEnv where
  extractJobRequirements : String → JdRequirements
  semanticScore : List String → List String → ℚ
  passThreshold : ℚ
  fmt : ℚ → String

/-- Models the missing→matched reclassification loop of `SkillValidator.process`
(`for skill in missing[:]: ... matched.append(skill); missing.remove(skill)`). -/
def reclassifyStep (skillEvidence : List (String × Evidence))
    (mm : List String × List String) (skill : String) : List String × List String :=
  match skillEvidence.lookup skill with
  | some ev =>
    if ev.found ∧ ev.confidence > 40 then (mm.1 ++ [skill], mm.2.erase skill) else mm
  | none => mm

/-- Models the evidence loop guard and collection of `SkillValidator.process`:
`skill_evidence` entries are gathered only when both a vector store and a
candidate id are available (`if vector_store and candidate_id`). -/
def skillEvidenceOf (vectorStore : Option (String → Evidence)) (candidateId : String)
    (requiredSkills : List String) : List (String × Evidence) :=
  match vectorStore with
  | some q => if candidateId ≠ "" then requiredSkills.map (fun s => (s, q s)) else []
  | none => []

/-- Models the running `evidence_boost` accumulation of `SkillValidator.process`:
+2 per skill whose evidence is found with confidence above 50. -/
def evidenceBoostOf (skillEvidence : List (String × Evidence)) : ℚ :=
  skillEvidence.foldl
    (fun b se => if se.2.found ∧ se.2.confidence > 50 then b + 2 else b) 0

/-- Models `SkillValidator.process`.  The vector store, when configured, is
abstracted as a per-required-skill evidence lookup (`_get_skill_evidence`). -/
def validatorProcess (env : ValEnv) (cleanData : CleanData) (jobDescription : String)
    (cleanToken : String) (vectorStore : Option (String → Evidence))
    (candidateId : String) : Agent2Result :=
  let tv := validateCleanToken cleanToken
  if ¬ tv.1 then
    { status := "FAIL", reason := "❌ Token validation failed: " ++ tv.2, score := 0,
      baseScore := none, projectBonus := none, evidenceBoost := none,
      missingSkills := none, matchedSkills := none, audit := none }
  else
    let jd := env.extractJobRequirements jobDescription
    let candidateSkills := cleanData.skills
    let requiredSkills := jd.requiredSkills
    let skillEvidence := skillEvidenceOf vectorStore candidateId requiredSkills
    let evidenceBoost := evidenceBoostOf skillEvidence
    let baseScore := env.semanticScore candidateSkills requiredSkills
    let projectBonus := calculateProjectBonus cleanData.projects requiredSkills
    let finalScore := min (baseScore + projectBonus + evidenceBoost) 100
    let candidateLower := candidateSkills.map strLower
    let matched0 := requiredSkills.filter (fun s => candidateLower.contains (strLower s))
    let missing0 := requiredSkills.filter (fun s => ¬ candidateLower.contains (strLower s))
    let mm := missing0.foldl (reclassifyStep skillEvidence) (matched0, missing0)
    let pass := finalScore ≥ env.passThreshold
    { status := if pass then "PASS" else "FAIL"
      reason :=
        if pass then
          "✅ " ++ env.fmt finalScore ++ "% skill match (" ++ env.fmt env.passThreshold ++
            "% threshold)"
        else
          "❌ " ++ env.fmt finalScore ++ "% skill match (minimum " ++
            env.fmt env.passThreshold ++ "% required)"
      score := pyRound finalScore
      baseScore := some (pyRound baseScore)
      projectBonus := some (pyRound projectBonus)
      evidenceBoost := some (pyRound evidenceBoost)
      missingSkills := some mm.2
      matchedSkills := some mm.1
      audit := some { evidenceBoost := evidenceBoost, baseSkillScore := baseScore,
                      projectBonus := projectBonus, finalScore := finalScore,
                      matchedSkills := mm.1, missingSkills := mm.2 } }

/-! ## Orchestrator -/

/-- Question-generation result of Agent 3 (`Inquisitor.process`). -/
structure Agent3Questions where
  questions : List String
  status : String
  reason : String
deriving DecidableEq, Repr

/-- Answer-evaluation result of Agent 3 (`Inquisitor.evaluate_candidate_answers`). -/
structure Agent3Eval where
  status : String
  authenticityScore : ℚ
  reason : String
  redFlags : List String
  individualScores : List ℚ
deriving DecidableEq, Repr

/-- Stage behaviours as the orchestrator observes them: each call either
returns its result dictionary or raises, `Except.error` carrying `str(e)`. -/
structure OrchEnv where
  agent1 : String → ℚ → Except String Agent1Result
  agent2 : CleanData → String → String → Except String Agent2Result
  agent3gen : CleanData → Except String Agent3Questions
  agent3eval : CleanData → List (String × String) → Except String Agent3Eval
  ledgerAgentId : Option String
  ledgerBlockId : String
  ledgerTimestamp : String
  runTimestamp : String

/-- The orchestrator's `result` dictionary (the fields the claims observe;
`stageKeys` lists the keys of `pipeline_stages` in insertion order). -/
structure PipelineResult where
  candidateId : String
  timestamp : String
  finalStatus : String
  finalReason : Option String
  agent1Status : String
  agent1Reason : String
  yearsExp : ℚ
  agent1Res : Agent1Result
  agent2Status : Option String
  agent2Score : Option Int
  agent2Reason : Option String
  agent2Res : Option Agent2Result
  agent3Questions : Option Agent3Questions
  verificationQuestions : Option (List String)
  agent3Status : Option String
  agent3Eval : Option Agent3Eval
  stageKeys : List String
  integrityBlock : Option Block
deriving DecidableEq, Repr

/-- Externally visible calls the orchestrator makes, in order. -/
inductive OrchEvent
  | agent1Invoked
  | agent2Invoked
  | agent3GenInvoked
  | agent3EvalInvoked
  | ledgerBlockCreated
deriving DecidableEq, Repr

/-- Orchestrator instance state relevant to the claims
(`self.current_candidate_id`, `self.current_result`). -/
structure OrchState where
  currentCandidateId : Option String
  currentResult : Option PipelineResult
deriving DecidableEq, Repr

/-- Models `VelosOrchestrator._generate_candidate_id`. -/
def generateCandidateId (resumeText : String) : String :=
  "CAND-" ++ strUpper (strTake (sha256HexOfString resumeText) 8)

/-- The empty `CleanData`, standing for the empty dict default of
`agent1_result.get("clean_data", {})`. -/
def CleanData.empty : CleanData := ⟨[], [], [], []⟩

/-- Models `VelosOrchestrator.run_verification_pipeline` in its core
configuration.  The DID/credential issuance, bias analysis of the job
description and vector-store bookkeeping are availability-gated side channels
that write only display metadata; they do not touch the gating decisions,
stage statuses, token or trust-layer observables modelled here, and are
omitted.  Returns the result dictionary, the updated orchestrator state and
the trace of stage invocations. -/
def runVerificationPipeline (env : OrchEnv) (rawResume jobDescription : String)
    (minYears : ℚ) : PipelineResult × OrchState × List OrchEvent :=
  let candidateId := generateCandidateId rawResume
  let a1 : Agent1Result :=
    match env.agent1 rawResume minYears with
    | .ok r => r
    | .error e =>
      { status := "FAIL", reason := "Agent 1 error: " ++ e, yearsExp := 0,
        cleanData := none, cleanDataFullText := none, cleanToken := some "",
        biasFlags := [], redactionStats := none }
  if a1.status = "FAIL" then
    let r : PipelineResult :=
      { candidateId := candidateId, timestamp := env.runTimestamp,
        finalStatus := "REJECTED_BY_AGENT_1", finalReason := some a1.reason,
        agent1Status := a1.status, agent1Reason := a1.reason, yearsExp := a1.yearsExp,
        agent1Res := a1, agent2Status := none, agent2Score := none,
        agent2Reason := none, agent2Res := none, agent3Questions := none,
        verificationQuestions := none, agent3Status := none, agent3Eval := none,
        stageKeys := ["agent_1"], integrityBlock := none }
    (r, { currentCandidateId := some candidateId, currentResult := some r },
     [.agent1Invoked])
  else
    let a2 : Agent2Result :=
      match env.agent2 (a1.cleanData.getD CleanData.empty) jobDescription
          (a1.cleanToken.getD "") with
      | .ok r => r
      | .error e =>
        { status := "FAIL", reason := "Agent 2 error: " ++ e, score := 0,
          baseScore := none, projectBonus := none, evidenceBoost := none,
          missingSkills := some [], matchedSkills := some [], audit := none }
    if a2.status = "FAIL" then
      let r : PipelineResult :=
        { candidateId := candidateId, timestamp := env.runTimestamp,
          finalStatus := "REJECTED_BY_AGENT_2", finalReason := some a2.reason,
          agent1Status := a1.status, agent1Reason := a1.reason, yearsExp := a1.yearsExp,
          agent1Res := a1, agent2Status := some a2.status, agent2Score := some a2.score,
          agent2Reason := some a2.reason, agent2Res := some a2, agent3Questions := none,
          verificationQuestions := none, agent3Status := none, agent3Eval := none,
          stageKeys := ["agent_1", "agent_2"], integrityBlock := none }
      (r, { currentCandidateId := some candidateId, currentResult := some r },
       [.agent1Invoked, .agent2Invoked])
    else
      let a3 : Agent3Questions :=
        match env.agent3gen (a1.cleanData.getD CleanData.empty) with
        | .ok r => r
        | .error e => { questions := [], status := "FAIL", reason := "Agent 3 error: " ++ e }
      let r : PipelineResult :=
        { candidateId := candidateId, timestamp := env.runTimestamp,
          finalStatus := "QUESTIONS_PENDING", finalReason := none,
          agent1Status := a1.status, agent1Reason := a1.reason, yearsExp := a1.yearsExp,
          agent1Res := a1, agent2Status := some a2.status, agent2Score := some a2.score,
          agent2Reason := some a2.reason, agent2Res := some a2,
          agent3Questions := some a3, verificationQuestions := some a3.questions,
          agent3Status := some "PENDING", agent3Eval := none,
          stageKeys := ["agent_1", "agent_2", "agent_3_questions"],
          integrityBlock := none }
      (r, { currentCandidateId := some candidateId, currentResult := some r },
       [.agent1Invoked, .agent2Invoked, .agent3GenInvoked])

/-- Python `candidate_id or self.current_candidate_id` followed by the `not cid`
truthiness test: `none` and `""` both count as missing. -/
def pyOrStr (a b : Option String) : String :=
  match a with
  | some s => if s = "" then b.getD "" else s
  | none => b.getD ""

/-- Return shapes of `evaluate_candidate_answers`: the early caller-error
dictionaries (`{"status": ..., "reason": ...}`) or the final summary. -/
inductive EvalResponse
  | err (status reason : String)
  | done (candidateId : String) (agent3Status : String) (agent3Reason : String)
      (authenticity : ℚ) (redFlags : List String) (finalStatus : String)
      (finalReason : String) (integrityBlock : Option Block)
deriving DecidableEq, Repr

/-- Builds the `hashable_result` snapshot sealed by `evaluate_candidate_answers`. -/
def hashableResult (cid : String) (cur : PipelineResult) (a3e : Agent3Eval)
    (finalStatus finalReason : String) : Snapshot :=
  [("candidate_id", .str cid),
   ("final_status", .str finalStatus),
   ("final_reason", .str finalReason),
   ("agent_1_status", .str cur.agent1Status),
   ("agent_2_status", match cur.agent2Status with | some s => .str s | none => .null),
   ("agent_2_score", match cur.agent2Score with | some n => .int n | none => .null),
   ("agent_3_status", .str a3e.status),
   ("agent_3_authenticity", .num a3e.authenticityScore),
   ("red_flags_count", .int a3e.redFlags.length),
   ("timestamp", .str cur.timestamp)]

/-- Models `VelosOrchestrator.evaluate_candidate_answers` (credential issuance
omitted as in `runVerificationPipeline`).  Returns the response dictionary,
the updated orchestrator state and the trace of calls performed. -/
def evaluateCandidateAnswers (env : OrchEnv) (st : OrchState)
    (qaPairs : List (String × String)) (candidateId : Option String) :
    EvalResponse × OrchState × List OrchEvent :=
  let cid := pyOrStr candidateId st.currentCandidateId
  match st.currentResult with
  | none => (.err "ERROR" "No active verification pipeline", st, [])
  | some cur =>
    if cid = "" then (.err "ERROR" "No active verification pipeline", st, [])
    else
      match cur.agent1Res.cleanData with
      | none => (.err "ERROR" "No clean data available from Agent 1", st, [])
      | some cleanData =>
        let a3e : Agent3Eval :=
          match env.agent3eval cleanData qaPairs with
          | .ok r => r
          | .error e =>
            { status := "UNCERTAIN", authenticityScore := 50,
              reason := "Agent 3 evaluation error: " ++ e, redFlags := [],
              individualScores := [] }
        let pass := a3e.status = "PASS"
        let finalStatus := if pass then "✅ APPROVED" else "❌ REJECTED"
        let finalReason := if pass then "Passed all verification stages" else a3e.reason
        let ledger : Option Block :=
          match env.ledgerAgentId with
          | some agentId =>
            some (createBlock agentId env.ledgerBlockId env.ledgerTimestamp cid
              (hashableResult cid cur a3e finalStatus finalReason) none)
          | none => none
        let cur' : PipelineResult :=
          { cur with
            finalStatus := finalStatus, finalReason := some finalReason,
            agent3Status := some a3e.status, agent3Eval := some a3e,
            stageKeys :=
              if cur.stageKeys.contains "agent_3_evaluation" then cur.stageKeys
              else cur.stageKeys ++ ["agent_3_evaluation"],
            integrityBlock := match ledger with | some b => some b | none => cur.integrityBlock }
        (.done cid a3e.status a3e.reason a3e.authenticityScore a3e.redFlags
           finalStatus finalReason cur'.integrityBlock,
         { st with currentResult := some cur' },
         [.agent3EvalInvoked] ++ (match ledger with | some _ => [.ledgerBlockCreated] | none => []))

/-! ## Derived predicates used by the theorem statements -/

/-- Linkage of a chain continuing from block `p`: each block's `previous_hash`
is the preceding block's `data_hash`. -/
def linkedFrom : Block → List Block → Bool
  | _, [] => true
  | p, b :: rest => (decide (b.previousHash = p.dataHash)) && linkedFrom b rest

/-- Blocks sealed in order as the spec describes: the first block carries the
`"GENESIS"` sentinel and each later block links to its predecessor's data hash. -/
def properlyLinked : List Block → Bool
  | [] => true
  | b :: rest => (decide (b.previousHash = "GENESIS")) && linkedFrom b rest

/-- Adjacent timestamps are nondecreasing. -/
def timestampsAscending : List Block → Bool
  | [] => true
  | [_] => true
  | a :: b :: rest => strLe a.timestamp b.timestamp && timestampsAscending (b :: rest)

/-- Adjacent timestamps are strictly increasing. -/
def timestampsStrict : List Block → Bool
  | [] => true
  | [_] => true
  | a :: b :: rest => strLt a.timestamp b.timestamp && timestampsStrict (b :: rest)

/-- Timestamp order on blocks, as a proposition. -/
def tsLeP (a b : Block) : Prop := strLe a.timestamp b.timestamp = true

/-- Strict timestamp order on blocks, as a proposition. -/
def tsLtP (a b : Block) : Prop := strLt a.timestamp b.timestamp = true

/-- Boolean timestamp comparison used by the sort inside `createAuditChain`. -/
def tsLeB (a b : Block) : Bool := strLe a.timestamp b.timestamp

/-- The reclassification condition of `SkillValidator.process`: a missing
skill is moved to matched exactly when its evidence entry exists, was found,
and has confidence above 40. -/
def evidenceMoved (skillEvidence : List (String × Evidence)) (s : String) : Bool :=
  match skillEvidence.lookup s with
  | some e => e.found && decide (e.confidence > 40)
  | none => false

/-! ## Concrete instances for witnesses and counterexamples -/

/-- A concrete decision snapshot, shaped like the sealed `hashable_result`. -/
def snapC1 : Snapshot :=
  [("candidate_id", .str "CAND-12345"), ("final_status", .str "APPROVED"),
   ("agent_2_score", .int 85)]

/-- The snapshot `snapC1` with a single field (`agent_2_score`) mutated. -/
def snapC1m : Snapshot :=
  [("candidate_id", .str "CAND-12345"), ("final_status", .str "APPROVED"),
   ("agent_2_score", .int 90)]

/-- First block of a concrete two-block sealed chain. -/
def blockC3a : Block :=
  createBlock "Velos-Orchestrator" "blk-1" "2025-01-15T10:30:00Z" "CAND-1"
    [("final_status", .str "APPROVED")] none

/-- Second block of the chain, sealed later and linked to `blockC3a`. -/
def blockC3b : Block :=
  createBlock "Velos-Orchestrator" "blk-2" "2025-01-16T09:00:00Z" "CAND-1"
    [("final_status", .str "REJECTED")] (some blockC3a.dataHash)

/-- A concrete validator environment: fixed parsed requirements, constant
similarity score, the source's threshold 60. -/
def valEnvW : ValEnv :=
  { extractJobRequirements := fun _ =>
      { requiredSkills := ["python", "sql"], niceToHave := [], minYears := 2,
        roleLevel := "mid" }
    semanticScore := fun _ _ => 75
    passThreshold := 60
    fmt := fun _ => "" }

/-- Concrete clean data: python matched directly, sql only via evidence. -/
def cleanDataW : CleanData :=
  { skills := ["python"], projects := ["built dashboards"], educationLevel := [],
    certifications := [] }

/-- Concrete evidence lookup: strong retrieval evidence for sql only. -/
def evidenceW : String → Evidence :=
  fun s => if s = "sql" then { found := true, confidence := 80 }
    else { found := false, confidence := 0 }

/-- A concrete gatekeeper environment whose experience extractor reports half
a year. -/
def gkEnvW : GkEnv :=
  { extractYears := fun _ => 1 / 2
    redactPII := fun s => (s, [])
    extractCleanData := fun _ => CleanData.empty
    detectBias := fun _ => []
    timestamp := "2025-01-15T10:30:00.000000"
    fmt := fun _ => "" }

/-- A healthy Stage 2 result used as a stage behaviour in orchestrator instances. -/
def agent2OkW : Agent2Result :=
  { status := "PASS", reason := "ok", score := 80, baseScore := some 80,
    projectBonus := some 0, evidenceBoost := some 0, missingSkills := some [],
    matchedSkills := some [], audit := none }

/-- A healthy Stage 3 question-generation result. -/
def agent3QOkW : Agent3Questions := { questions := ["q1", "q2", "q3"], status := "PASS", reason := "ok" }

/-- A healthy Stage 3 evaluation result. -/
def agent3EOkW : Agent3Eval :=
  { status := "PASS", authenticityScore := 90, reason := "ok", redFlags := [],
    individualScores := [] }

/-- A Stage 1 PASS result with clean data and a well-formed token. -/
def a1PassW : Agent1Result :=
  { status := "PASS", reason := "ok", yearsExp := 3, cleanData := some cleanDataW,
    cleanDataFullText := some "txt", cleanToken := some "CLEAN-ABCD1234EFGH5678",
    biasFlags := [], redactionStats := some [] }

/-- Orchestrator instance whose Agent 1 is the embedded gatekeeper over
`gkEnvW` and whose later stages behave healthily (trust layer disabled, the
`TRUST_LAYER_AVAILABLE = False` configuration). -/
def orchEnvW : OrchEnv :=
  { agent1 := fun r my => .ok (gatekeeperProcess gkEnvW r my).1
    agent2 := fun _ _ _ => .ok agent2OkW
    agent3gen := fun _ => .ok agent3QOkW
    agent3eval := fun _ _ => .ok agent3EOkW
    ledgerAgentId := none
    ledgerBlockId := "blk-0"
    ledgerTimestamp := "2025-01-15T10:40:00Z"
    runTimestamp := "2025-01-15T10:30:00Z" }

/-- Variant of `orchEnvW` whose Stage 1 always raises. -/
def orchEnvErr1 : OrchEnv := { orchEnvW with agent1 := fun _ _ => .error "boom" }

/-- Variant whose Stage 1 passes and Stage 2 always raises. -/
def orchEnvErr2 : OrchEnv :=
  { orchEnvW with agent1 := fun _ _ => .ok a1PassW, agent2 := fun _ _ _ => .error "boom" }

/-- Variant whose Stages 1 and 2 pass and question generation always raises. -/
def orchEnvErr3 : OrchEnv :=
  { orchEnvW with agent1 := fun _ _ => .ok a1PassW, agent3gen := fun _ => .error "boom" }

/-- Variant whose answer evaluation always raises. -/
def orchEnvErr4 : OrchEnv :=
  { orchEnvW with agent1 := fun _ _ => .ok a1PassW, agent3eval := fun _ _ => .error "boom" }

/-- A parked run in `QUESTIONS_PENDING`, as `run_verification_pipeline` leaves it. -/
def prPendingW : PipelineResult :=
  { candidateId := "CAND-1", timestamp := "2025-01-15T10:30:00Z",
    finalStatus := "QUESTIONS_PENDING", finalReason := none, agent1Status := "PASS",
    agent1Reason := "ok", yearsExp := 3, agent1Res := a1PassW,
    agent2Status := some "PASS", agent2Score := some 80, agent2Reason := some "ok",
    agent2Res := some agent2OkW, agent3Questions := some agent3QOkW,
    verificationQuestions := some agent3QOkW.questions, agent3Status := some "PENDING",
    agent3Eval := none, stageKeys := ["agent_1", "agent_2", "agent_3_questions"],
    integrityBlock := none }

/-- Orchestrator state holding the parked run. -/
def stPendingW : OrchState :=
  { currentCandidateId := some "CAND-1", currentResult := some prPendingW }

/-- A run already terminal at Stage 2 rejection (status `REJECTED_BY_AGENT_2`),
with Stage 1 clean data still present. -/
def prRejected2W : PipelineResult :=
  { prPendingW with
    finalStatus := "REJECTED_BY_AGENT_2"
    finalReason := some "low score"
    agent2Status := some "FAIL"
    agent2Score := some 40
    agent2Reason := some "low score"
    agent3Questions := none
    verificationQuestions := none
    agent3Status := none
    stageKeys := ["agent_1", "agent_2"] }

/-- Orchestrator state holding the Stage-2-rejected run. -/
def stRejected2W : OrchState :=
  { currentCandidateId := some "CAND-1", currentResult := some prRejected2W }

/-! ## Claim theorems -/

/-- Strings with equal character data are equal. -/
theorem string_data_eq {a b : String} (h : a.data = b.data) : a = b :=
  congrArg String.mk h

/-- Character data of a concatenation. -/
theorem string_data_append (a b : String) : (a ++ b).data = a.data ++ b.data := by
  cases a; cases b; rfl

/-- Length of a concatenation. -/
theorem string_length_append (a b : String) : (a ++ b).length = a.length + b.length := by
  show (a ++ b).data.length = a.data.length + b.data.length
  rw [string_data_append, List.length_append]

/-- The Python prefix test holds exactly when the string decomposes as
marker ++ remainder. -/
theorem strStartsWith_iff (s pre : String) :
    strStartsWith s pre = true ↔ ∃ r : String, s = pre ++ r := by
  unfold strStartsWith
  rw [List.isPrefixOf_iff_prefix]
  constructor
  · rintro ⟨u, hu⟩
    exact ⟨⟨u⟩, string_data_eq (by rw [string_data_append]; exact hu.symm)⟩
  · rintro ⟨r, rfl⟩
    rw [string_data_append]
    exact List.prefix_append _ _

/-- C4: the Stage 2 structural token check accepts a token `t` iff `t` is the
fixed marker `"CLEAN-"` followed by exactly 16 further characters (total
length 22); the 16 characters after the marker are never inspected.  In
particular `"CLEAN-ABCDEF1234567890"` is accepted and `"CLEAN-123"` is
rejected. -/
theorem c4_token_structural_check :
    (∀ t : String, (validateCleanToken t).1 = true ↔
      ∃ r : String, t = "CLEAN-" ++ r ∧ r.length = 16) ∧
    (validateCleanToken "CLEAN-ABCDEF1234567890").1 = true ∧
    (validateCleanToken "CLEAN-123").1 = false := by
  refine ⟨fun t => ?_, by decide, by decide⟩
  constructor
  · intro h
    unfold validateCleanToken at h
    split_ifs at h with h1 h2 h3
    have hsw : strStartsWith t "CLEAN-" = true := h2
    have hlen : t.length = 22 := not_not.mp h3
    obtain ⟨r, rfl⟩ := (strStartsWith_iff t "CLEAN-").1 hsw
    refine ⟨r, rfl, ?_⟩
    have hap := string_length_append "CLEAN-" r
    have h6 : "CLEAN-".length = 6 := by decide
    omega
  · rintro ⟨r, rfl, hr⟩
    have hap := string_length_append "CLEAN-" r
    have h6 : "CLEAN-".length = 6 := by decide
    have hlen : ("CLEAN-" ++ r).length = 22 := by omega
    have hne : ("CLEAN-" ++ r) ≠ "" := by
      intro he
      have hl := congrArg String.length he
      rw [hlen] at hl
      exact absurd hl (by decide)
    have hsw : strStartsWith ("CLEAN-" ++ r) "CLEAN-" = true :=
      (strStartsWith_iff _ _).2 ⟨r, rfl⟩
    unfold validateCleanToken
    rw [if_neg hne, if_neg (not_not_intro hsw), if_neg (not_not_intro hlen)]

/-- Cons characterisation of the code-point lexicographic order. -/
theorem charListLe_cons_iff (x y : Char) (xs ys : List Char) :
    charListLe (x :: xs) (y :: ys) = true ↔
      (x.toNat < y.toNat ∨ (x.toNat = y.toNat ∧ charListLe xs ys = true)) := by
  simp only [charListLe]
  split_ifs with h1 h2
  · simp [h1]
  · constructor
    · intro h; exact absurd h (by decide)
    · rintro (h | ⟨h, _⟩) <;> omega
  · have hxy : x.toNat = y.toNat := by omega
    constructor
    · intro h; exact Or.inr ⟨hxy, h⟩
    · rintro (h | ⟨_, h⟩)
      · exact absurd h h1
      · exact h

/-- Reflexivity of the lexicographic order. -/
theorem charListLe_refl : ∀ l : List Char, charListLe l l = true
  | [] => rfl
  | _ :: as => by
    rw [charListLe_cons_iff]
    exact Or.inr ⟨rfl, charListLe_refl as⟩

/-- Totality of the lexicographic order. -/
theorem charListLe_total : ∀ a b : List Char, charListLe a b = true ∨ charListLe b a = true
  | [], _ => Or.inl rfl
  | _ :: _, [] => Or.inr rfl
  | x :: xs, y :: ys => by
    rcases Nat.lt_trichotomy x.toNat y.toNat with h | h | h
    · exact Or.inl ((charListLe_cons_iff x y xs ys).2 (Or.inl h))
    · rcases charListLe_total xs ys with h' | h'
      · exact Or.inl ((charListLe_cons_iff x y xs ys).2 (Or.inr ⟨h, h'⟩))
      · exact Or.inr ((charListLe_cons_iff y x ys xs).2 (Or.inr ⟨h.symm, h'⟩))
    · exact Or.inr ((charListLe_cons_iff y x ys xs).2 (Or.inl h))

/-- Transitivity of the lexicographic order. -/
theorem charListLe_trans : ∀ a b c : List Char,
    charListLe a b = true → charListLe b c = true → charListLe a c = true
  | [], _, _, _, _ => rfl
  | _ :: _, [], _, hab, _ => by simp [charListLe] at hab
  | _ :: _, _ :: _, [], _, hbc => by simp [charListLe] at hbc
  | x :: xs, y :: ys, z :: zs, hab, hbc => by
    rw [charListLe_cons_iff] at hab hbc ⊢
    rcases hab with h | ⟨h, hab'⟩ <;> rcases hbc with h' | ⟨h', hbc'⟩
    · exact Or.inl (by omega)
    · exact Or.inl (by omega)
    · exact Or.inl (by omega)
    · exact Or.inr ⟨by omega, charListLe_trans xs ys zs hab' hbc'⟩

/-- Antisymmetry of the lexicographic order. -/
theorem charListLe_antisymm : ∀ a b : List Char,
    charListLe a b = true → charListLe b a = true → a = b
  | [], [], _, _ => rfl
  | [], _ :: _, _, hba => by simp [charListLe] at hba
  | _ :: _, [], hab, _ => by simp [charListLe] at hab
  | x :: xs, y :: ys, hab, hba => by
    rw [charListLe_cons_iff] at hab hba
    have hxy : x.toNat = y.toNat := by
      rcases hab with h | ⟨h, _⟩ <;> rcases hba with h' | ⟨h', _⟩ <;> omega
    have hx : x = y := by
      have hc := Char.ofNat_toNat x
      rw [hxy, Char.ofNat_toNat] at hc
      exact hc.symm
    have hab' : charListLe xs ys = true := by
      rcases hab with h | ⟨_, h⟩
      · exact absurd h (by omega)
      · exact h
    have hba' : charListLe ys xs = true := by
      rcases hba with h | ⟨_, h⟩
      · exact absurd h (by omega)
      · exact h
    rw [hx, charListLe_antisymm xs ys hab' hba']

/-- Transitivity of `strLe`. -/
theorem strLe_trans {a b c : String} (h1 : strLe a b = true) (h2 : strLe b c = true) :
    strLe a c = true := charListLe_trans _ _ _ h1 h2

/-- Totality of `strLe`. -/
theorem strLe_total (a b : String) : strLe a b = true ∨ strLe b a = true :=
  charListLe_total _ _

/-- Antisymmetry of `strLe`. -/
theorem strLe_antisymm {a b : String} (h1 : strLe a b = true) (h2 : strLe b a = true) :
    a = b := string_data_eq (charListLe_antisymm _ _ h1 h2)

/-- A strict comparison is in particular a weak one. -/
theorem strLe_of_strLt {a b : String} (h : strLt a b = true) : strLe a b = true := by
  unfold strLt at h
  rw [Bool.and_eq_true] at h
  exact h.1

/-- Transitivity of `strLt`. -/
theorem strLt_trans {a b c : String} (h1 : strLt a b = true) (h2 : strLt b c = true) :
    strLt a c = true := by
  unfold strLt at h1 h2 ⊢
  rw [Bool.and_eq_true] at h1 h2 ⊢
  obtain ⟨l1, n1⟩ := h1
  obtain ⟨l2, n2⟩ := h2
  rw [Bool.not_eq_true', beq_eq_false_iff_ne] at n1 n2
  refine ⟨strLe_trans l1 l2, ?_⟩
  rw [Bool.not_eq_true', beq_eq_false_iff_ne]
  intro heq
  subst heq
  exact n2 (strLe_antisymm l2 l1)

/-- Inserting an upper bound lands at the end of the list. -/
theorem insertStable_append {α : Type} (le : α → α → Bool) (x : α) (l : List α)
    (h : ∀ y ∈ l, le y x = true) : insertStable le x l = l ++ [x] := by
  induction l with
  | nil => rfl
  | cons y ys ih =>
    unfold insertStable
    rw [if_pos (h y (by simp))]
    rw [ih (fun z hz => h z (by simp [hz]))]
    rfl

/-- Folding the stable insert over a sorted tail leaves the list unchanged. -/
theorem foldl_insert_of_pairwise {α : Type} (le : α → α → Bool) :
    ∀ (xs acc : List α), List.Pairwise (fun a b => le a b = true) (acc ++ xs) →
      xs.foldl (fun a x => insertStable le x a) acc = acc ++ xs := by
  intro xs
  induction xs with
  | nil => intro acc _; simp
  | cons x xs ih =>
    intro acc hp
    have hax : ∀ y ∈ acc, le y x = true := by
      intro y hy
      exact (List.pairwise_append.mp hp).2.2 y hy x (by simp)
    have hshift : (acc ++ [x]) ++ xs = acc ++ x :: xs := by simp
    rw [List.foldl_cons, insertStable_append le x acc hax,
      ih (acc ++ [x]) (by rw [hshift]; exact hp), hshift]

/-- Sorting an already sorted list is the identity. -/
theorem sortStable_of_pairwise {α : Type} (le : α → α → Bool) (l : List α)
    (h : List.Pairwise (fun a b => le a b = true) l) : sortStable le l = l := by
  unfold sortStable
  simpa using foldl_insert_of_pairwise le l [] (by simpa using h)

/-- Stable insertion permutes the cons. -/
theorem insertStable_perm {α : Type} (le : α → α → Bool) (x : α) :
    ∀ l : List α, (insertStable le x l).Perm (x :: l) := by
  intro l
  induction l with
  | nil => exact List.Perm.refl _
  | cons y ys ih =>
    unfold insertStable
    by_cases h : le y x = true
    · rw [if_pos h]
      exact (ih.cons y).trans (List.Perm.swap x y ys)
    · rw [if_neg h]

/-- The stable sort permutes its input. -/
theorem sortStable_perm {α : Type} (le : α → α → Bool) (l : List α) :
    (sortStable le l).Perm l := by
  suffices h : ∀ (xs acc : List α),
      (xs.foldl (fun a x => insertStable le x a) acc).Perm (acc ++ xs) by
    simpa using h l []
  intro xs
  induction xs with
  | nil => intro acc; simp
  | cons x xs ih =>
    intro acc
    rw [List.foldl_cons]
    refine (ih (insertStable le x acc)).trans ?_
    have h1 : (insertStable le x acc ++ xs).Perm ((x :: acc) ++ xs) :=
      (insertStable_perm le x acc).append_right xs
    refine h1.trans ?_
    exact (List.perm_middle).symm

/-- Stable insertion preserves sortedness, given totality and transitivity. -/
theorem insertStable_pairwise {α : Type} (le : α → α → Bool)
    (total : ∀ a b : α, le a b = true ∨ le b a = true)
    (htrans : ∀ a b c : α, le a b = true → le b c = true → le a c = true) (x : α) :
    ∀ l : List α, List.Pairwise (fun a b => le a b = true) l →
      List.Pairwise (fun a b => le a b = true) (insertStable le x l) := by
  intro l
  induction l with
  | nil => intro _; unfold insertStable; simp
  | cons y ys ih =>
    intro hp
    have hy := List.pairwise_cons.mp hp
    unfold insertStable
    by_cases h : le y x = true
    · rw [if_pos h]
      refine List.pairwise_cons.mpr ⟨?_, ih hy.2⟩
      intro z hz
      rcases List.mem_cons.mp ((insertStable_perm le x ys).mem_iff.mp hz) with rfl | hz'
      · exact h
      · exact hy.1 z hz'
    · rw [if_neg h]
      have hxy : le x y = true := (total x y).resolve_right h
      refine List.pairwise_cons.mpr ⟨?_, hp⟩
      intro z hz
      rcases List.mem_cons.mp hz with rfl | hz'
      · exact hxy
      · exact htrans x y z hxy (hy.1 z hz')

/-- The stable sort produces a sorted list, given totality and transitivity. -/
theorem sortStable_pairwise {α : Type} (le : α → α → Bool)
    (total : ∀ a b : α, le a b = true ∨ le b a = true)
    (htrans : ∀ a b c : α, le a b = true → le b c = true → le a c = true)
    (l : List α) : List.Pairwise (fun a b => le a b = true) (sortStable le l) := by
  suffices h : ∀ (xs acc : List α), List.Pairwise (fun a b => le a b = true) acc →
      List.Pairwise (fun a b => le a b = true)
        (xs.foldl (fun a x => insertStable le x a) acc) by
    exact h l [] (by simp)
  intro xs
  induction xs with
  | nil => intro acc h; simpa using h
  | cons x xs ih =>
    intro acc h
    rw [List.foldl_cons]
    exact ih _ (insertStable_pairwise le total htrans x acc h)

/-- A weakly sorted permutation of a strictly sorted block list is that list. -/
theorem perm_pairwise_strict_eq : ∀ (l2 l1 : List Block), l1.Perm l2 →
    List.Pairwise tsLeP l1 → List.Pairwise tsLtP l2 → l1 = l2
  | [], l1, hperm, _, _ => hperm.eq_nil
  | b :: t2, l1, hperm, hp1, hp2 => by
    cases l1 with
    | nil => exact absurd hperm.nil_eq.symm (by simp)
    | cons a t1 =>
      have hab : a = b := by
        by_cases h : a = b
        · exact h
        · exfalso
          have ha2 : a ∈ t2 :=
            (List.mem_cons.mp (hperm.subset (by simp))).resolve_left h
          have hb1 : b ∈ t1 :=
            (List.mem_cons.mp (hperm.symm.subset (by simp))).resolve_left
              (fun e => h e.symm)
          have hba : tsLtP b a := (List.pairwise_cons.mp hp2).1 a ha2
          have hab' : tsLeP a b := (List.pairwise_cons.mp hp1).1 b hb1
          unfold tsLtP strLt at hba
          rw [Bool.and_eq_true, Bool.not_eq_true', beq_eq_false_iff_ne] at hba
          exact hba.2 (strLe_antisymm hba.1 hab')
      subst hab
      rw [perm_pairwise_strict_eq t2 t1 hperm.cons_inv
        (List.pairwise_cons.mp hp1).2 (List.pairwise_cons.mp hp2).2]

/-- Adjacent nondecreasing timestamps give global pairwise order. -/
theorem tsAsc_pairwise : ∀ l : List Block,
    timestampsAscending l = true → List.Pairwise tsLeP l
  | [] => by intro _; simp
  | [a] => by intro _; simp
  | a :: b :: rest => by
    intro h
    unfold timestampsAscending at h
    rw [Bool.and_eq_true] at h
    have hp := tsAsc_pairwise (b :: rest) h.2
    refine List.pairwise_cons.mpr ⟨?_, hp⟩
    intro z hz
    rcases List.mem_cons.mp hz with rfl | hz'
    · exact h.1
    · exact strLe_trans h.1 ((List.pairwise_cons.mp hp).1 z hz')

/-- Adjacent strictly increasing timestamps give global strict pairwise order. -/
theorem tsStrict_pairwise : ∀ l : List Block,
    timestampsStrict l = true → List.Pairwise tsLtP l
  | [] => by intro _; simp
  | [a] => by intro _; simp
  | a :: b :: rest => by
    intro h
    unfold timestampsStrict at h
    rw [Bool.and_eq_true] at h
    have hp := tsStrict_pairwise (b :: rest) h.2
    refine List.pairwise_cons.mpr ⟨?_, hp⟩
    intro z hz
    rcases List.mem_cons.mp hz with rfl | hz'
    · exact h.1
    · exact strLt_trans h.1 ((List.pairwise_cons.mp hp).1 z hz')

/-- The linkage scan succeeds along a linked chain continuation. -/
theorem chainScan_linkedFrom : ∀ (l : List Block) (p : Block) (i : Nat),
    linkedFrom p l = true → chainScan i (some p) l = (true, [])
  | [], _, _, _ => rfl
  | b :: rest, p, i, h => by
    unfold linkedFrom at h
    rw [Bool.and_eq_true] at h
    have he : p.dataHash = b.previousHash := (of_decide_eq_true h.1).symm
    simp [chainScan, he, chainScan_linkedFrom rest b (i + 1) h.2]

/-- The linkage scan succeeds on a properly linked chain. -/
theorem chainScan_properlyLinked : ∀ l : List Block,
    properlyLinked l = true → chainScan 0 none l = (true, [])
  | [], _ => rfl
  | b :: rest, h => by
    unfold properlyLinked at h
    rw [Bool.and_eq_true] at h
    have he : b.previousHash = "GENESIS" := of_decide_eq_true h.1
    simp [chainScan, he, chainScan_linkedFrom rest b 1 h.2]

/-- C3 (amended): a chain of blocks sealed in order — first block carrying the
GENESIS sentinel, each later block linking to its predecessor's data hash,
timestamps strictly increasing — verifies as valid; and, because
`create_audit_chain` sorts the blocks by timestamp before checking linkage,
verification also returns valid on ANY reordering of such a chain (in
particular with any two blocks swapped), rather than returning invalid as the
claim stated. -/
theorem c3_chain_verification (blocks : List Block)
    (hlink : properlyLinked blocks = true)
    (hstrict : timestampsStrict blocks = true) :
    (createAuditChain blocks).valid = true ∧
    ∀ blocks' : List Block, blocks'.Perm blocks →
      (createAuditChain blocks').valid = true := by
  have hlt : List.Pairwise tsLtP blocks := tsStrict_pairwise blocks hstrict
  have hle : List.Pairwise (fun a b : Block => strLe a.timestamp b.timestamp = true) blocks :=
    hlt.imp (fun h => strLe_of_strLt h)
  constructor
  · by_cases hb : blocks = []
    · simp [createAuditChain, hb]
    · simp only [createAuditChain, if_neg hb]
      rw [sortStable_of_pairwise (fun a b => strLe a.timestamp b.timestamp) blocks hle,
        chainScan_properlyLinked blocks hlink]
  · intro blocks' hperm
    by_cases hb : blocks' = []
    · simp [createAuditChain, hb]
    · simp only [createAuditChain, if_neg hb]
      have hsorted :
          sortStable (fun a b => strLe a.timestamp b.timestamp) blocks' = blocks := by
        apply perm_pairwise_strict_eq blocks _ _ _ hlt
        · exact (sortStable_perm _ blocks').trans hperm
        · exact sortStable_pairwise _ (fun a b => strLe_total a.timestamp b.timestamp)
            (fun a b c (hab : strLe a.timestamp b.timestamp = true)
              (hbc : strLe b.timestamp c.timestamp = true) => strLe_trans hab hbc) blocks'
      rw [hsorted, chainScan_properlyLinked blocks hlink]

/-- Witness for C3 at a concrete two-block sealed chain and the identity and
swap orderings. -/
theorem c3_chain_verification_witness :
    properlyLinked [blockC3a, blockC3b] = true ∧
    timestampsStrict [blockC3a, blockC3b] = true ∧
    ((createAuditChain [blockC3a, blockC3b]).valid = true ∧
     ∀ blocks' : List Block, blocks'.Perm [blockC3a, blockC3b] →
       (createAuditChain blocks').valid = true) :=
  have h1 : properlyLinked [blockC3a, blockC3b] = true := by decide
  have h2 : timestampsStrict [blockC3a, blockC3b] = true := by decide
  ⟨h1, h2, c3_chain_verification [blockC3a, blockC3b] h1 h2⟩

/-- Counterexample to C3 as stated: a two-block chain sealed in order, passed
with its two blocks swapped, still verifies as valid (the sort by timestamp
undoes the reorder), where the claim said verification must return invalid. -/
theorem c3_chain_verification_counterexample :
    properlyLinked [blockC3a, blockC3b] = true ∧
    (createAuditChain [blockC3b, blockC3a]).valid = true := by
  constructor <;> decide

/-- C9: `compute_diff` edge cases: both inputs empty yields the empty report;
an empty original with non-empty redacted text `t` yields exactly one insert
op carrying `t`; a non-empty original with empty redacted text yields exactly
one delete op carrying `t`; and identical non-empty inputs yield exactly one
equal op carrying `t`.  The statement holds for every core diff algorithm and
every cleanup pass that leaves a single-equality diff unchanged (which the
library's `diff_cleanupSemantic` does). -/
theorem c9_compute_diff_edge_cases
    (core : String → String → List RawDiff) (cleanup : List RawDiff → List RawDiff)
    (t : String) (ht : t ≠ "")
    (hcleanup : cleanup [(0, t)] = [(0, t)]) :
    computeDiff core cleanup "" "" = [] ∧
    computeDiff core cleanup "" t = [{ type := .insert, text := t }] ∧
    computeDiff core cleanup t "" = [{ type := .delete, text := t }] ∧
    computeDiff core cleanup t t = [{ type := .equal, text := t }] := by
  refine ⟨by simp [computeDiff], by simp [computeDiff, ht], by simp [computeDiff, ht], ?_⟩
  simp [computeDiff, diffMain, ht, hcleanup, formatForFrontend, typeMap]

/-- Witness for C9 at `t = "abc"`, the identity cleanup and a trivial core. -/
theorem c9_compute_diff_edge_cases_witness :
    ("abc" : String) ≠ "" ∧
    computeDiff (fun _ _ => []) (fun l => l) "" "" = [] ∧
    computeDiff (fun _ _ => []) (fun l => l) "" "abc" = [{ type := .insert, text := "abc" }] ∧
    computeDiff (fun _ _ => []) (fun l => l) "abc" "" = [{ type := .delete, text := "abc" }] ∧
    computeDiff (fun _ _ => []) (fun l => l) "abc" "abc" = [{ type := .equal, text := "abc" }] :=
  ⟨by decide, c9_compute_diff_edge_cases (fun _ _ => []) (fun l => l) "abc" (by decide) rfl⟩

/-- C10: when the gatekeeper rejects for insufficient experience, the returned
result has status FAIL and carries no clean data, no redacted text, no
redaction stats and no clean token, and the only processing step performed is
experience extraction: PII redaction, clean-data extraction and token
generation never run for an ineligible submission. -/
theorem c10_rejected_resume_no_clean_derivative
    (env : GkEnv) (raw : String) (minYears : ℚ)
    (h : env.extractYears raw < minYears) :
    (gatekeeperProcess env raw minYears).1.status = "FAIL" ∧
    (gatekeeperProcess env raw minYears).1.cleanData = none ∧
    (gatekeeperProcess env raw minYears).1.cleanDataFullText = none ∧
    (gatekeeperProcess env raw minYears).1.cleanToken = none ∧
    (gatekeeperProcess env raw minYears).1.redactionStats = none ∧
    (gatekeeperProcess env raw minYears).2 = [.extractExperience] ∧
    GkOp.redactPII ∉ (gatekeeperProcess env raw minYears).2 ∧
    GkOp.extractCleanData ∉ (gatekeeperProcess env raw minYears).2 ∧
    GkOp.generateToken ∉ (gatekeeperProcess env raw minYears).2 := by
  have hv : (validateExperience env.fmt (env.extractYears raw) minYears).1 = false := by
    simp [validateExperience, not_le.mpr h]
  simp [gatekeeperProcess, hv]

/-- Witness for C10: half a year of experience against a 2-year minimum. -/
theorem c10_rejected_resume_no_clean_derivative_witness :
    gkEnvW.extractYears "resume text" < 2 ∧
    ((gatekeeperProcess gkEnvW "resume text" 2).1.status = "FAIL" ∧
     (gatekeeperProcess gkEnvW "resume text" 2).1.cleanData = none ∧
     (gatekeeperProcess gkEnvW "resume text" 2).1.cleanDataFullText = none ∧
     (gatekeeperProcess gkEnvW "resume text" 2).1.cleanToken = none ∧
     (gatekeeperProcess gkEnvW "resume text" 2).1.redactionStats = none ∧
     (gatekeeperProcess gkEnvW "resume text" 2).2 = [.extractExperience] ∧
     GkOp.redactPII ∉ (gatekeeperProcess gkEnvW "resume text" 2).2 ∧
     GkOp.extractCleanData ∉ (gatekeeperProcess gkEnvW "resume text" 2).2 ∧
     GkOp.generateToken ∉ (gatekeeperProcess gkEnvW "resume text" 2).2) :=
  have h : gkEnvW.extractYears "resume text" < 2 := by norm_num [gkEnvW]
  ⟨h, c10_rejected_resume_no_clean_derivative gkEnvW "resume text" 2 h⟩

/-- The evidence boost accumulator equals 2 per strongly evidenced skill. -/
theorem evidenceBoostOf_eq (sev : List (String × Evidence)) :
    evidenceBoostOf sev = 2 * (((sev.filter
      (fun se => decide (se.2.found = true ∧ se.2.confidence > 50))).length : ℚ)) := by
  suffices h : ∀ (init : ℚ) (l : List (String × Evidence)),
      l.foldl (fun b se => if se.2.found ∧ se.2.confidence > 50 then b + 2 else b) init =
        init + 2 * (((l.filter
          (fun se => decide (se.2.found = true ∧ se.2.confidence > 50))).length : ℚ)) by
    simpa [evidenceBoostOf] using h 0 sev
  intro init l
  induction l generalizing init with
  | nil => simp
  | cons x xs ih =>
    by_cases hx : x.2.found = true ∧ x.2.confidence > 50
    · have hxb : (decide (x.2.found = true ∧ x.2.confidence > 50)) = true :=
        decide_eq_true hx
      rw [List.foldl_cons, if_pos hx, ih]
      simp only [List.filter_cons, hxb, if_true, List.length_cons]
      push_cast
      ring
    · have hxb : (decide (x.2.found = true ∧ x.2.confidence > 50)) = false :=
        decide_eq_false hx
      rw [List.foldl_cons, if_neg hx, ih]
      simp [List.filter_cons, hx]

/-- C5: on a valid-token Stage 2 run, the internal final score is
`min(base_score + project_bonus + evidence_boost, 100)` with the evidence
boost contributing +2 per required skill whose retrieval evidence was found
with confidence above the threshold 50, the decision is PASS exactly when the
final score reaches the configured pass threshold, and the reported score is
the rounded final score. -/
theorem c5_stage2_scoring (env : ValEnv) (cd : CleanData) (jd tok : String)
    (vs : Option (String → Evidence)) (cid : String)
    (hTok : (validateCleanToken tok).1 = true) :
    ∃ a : Agent2Audit,
      (validatorProcess env cd jd tok vs cid).audit = some a ∧
      a.evidenceBoost = 2 * (((skillEvidenceOf vs cid
          (env.extractJobRequirements jd).requiredSkills).filter
          (fun se => decide (se.2.found = true ∧ se.2.confidence > 50))).length : ℚ) ∧
      a.finalScore = min
        (env.semanticScore cd.skills (env.extractJobRequirements jd).requiredSkills +
          calculateProjectBonus cd.projects (env.extractJobRequirements jd).requiredSkills +
          a.evidenceBoost) 100 ∧
      ((validatorProcess env cd jd tok vs cid).status = "PASS" ↔
        a.finalScore ≥ env.passThreshold) ∧
      (validatorProcess env cd jd tok vs cid).score = pyRound a.finalScore := by
  simp only [validatorProcess]
  rw [if_neg (not_not_intro hTok)]
  refine ⟨_, rfl, evidenceBoostOf_eq _, rfl, ?_, rfl⟩
  split_ifs with hp
  · exact iff_of_true rfl hp
  · refine iff_of_false ?_ hp
    intro h
    simp at h

/-- Witness for C5: concrete validator environment, clean data and evidence
(python matched directly; sql evidenced at confidence 80). -/
theorem c5_stage2_scoring_witness :
    (validateCleanToken "CLEAN-ABCD1234EFGH5678").1 = true ∧
    (∃ a : Agent2Audit,
      (validatorProcess valEnvW cleanDataW "jd text" "CLEAN-ABCD1234EFGH5678"
        (some evidenceW) "CAND-X").audit = some a ∧
      a.evidenceBoost = 2 * (((skillEvidenceOf (some evidenceW) "CAND-X"
          (valEnvW.extractJobRequirements "jd text").requiredSkills).filter
          (fun se => decide (se.2.found = true ∧ se.2.confidence > 50))).length : ℚ) ∧
      a.finalScore = min
        (valEnvW.semanticScore cleanDataW.skills
            (valEnvW.extractJobRequirements "jd text").requiredSkills +
          calculateProjectBonus cleanDataW.projects
            (valEnvW.extractJobRequirements "jd text").requiredSkills +
          a.evidenceBoost) 100 ∧
      ((validatorProcess valEnvW cleanDataW "jd text" "CLEAN-ABCD1234EFGH5678"
          (some evidenceW) "CAND-X").status = "PASS" ↔
        a.finalScore ≥ valEnvW.passThreshold) ∧
      (validatorProcess valEnvW cleanDataW "jd text" "CLEAN-ABCD1234EFGH5678"
          (some evidenceW) "CAND-X").score = pyRound a.finalScore) :=
  ⟨by decide, c5_stage2_scoring valEnvW cleanDataW "jd text" "CLEAN-ABCD1234EFGH5678"
    (some evidenceW) "CAND-X" (by decide)⟩

/-- One reclassification step moves the skill exactly under `evidenceMoved`. -/
theorem reclassifyStep_eq (sev : List (String × Evidence))
    (mm : List String × List String) (s : String) :
    reclassifyStep sev mm s =
      if evidenceMoved sev s = true then (mm.1 ++ [s], mm.2.erase s) else mm := by
  unfold reclassifyStep evidenceMoved
  cases h : sev.lookup s with
  | none => simp
  | some e =>
    dsimp only
    by_cases hf : e.found = true ∧ e.confidence > 40
    · have hb : (e.found && decide (e.confidence > 40)) = true := by
        rw [Bool.and_eq_true]
        exact ⟨hf.1, decide_eq_true hf.2⟩
      rw [if_pos hf, if_pos hb]
    · have hb : ¬ (e.found && decide (e.confidence > 40)) = true := by
        rw [Bool.and_eq_true]
        intro hc
        exact hf ⟨hc.1, of_decide_eq_true hc.2⟩
      rw [if_neg hf, if_neg hb]

/-- First component of the reclassification fold: moved skills are appended
in order. -/
theorem foldl_move_fst (p : String → Bool) :
    ∀ (xs : List String) (m ms : List String),
      (xs.foldl (fun mm s => if p s = true then (mm.1 ++ [s], mm.2.erase s) else mm)
        (m, ms)).1 = m ++ xs.filter p := by
  intro xs
  induction xs with
  | nil => intro m ms; simp
  | cons x xs ih =>
    intro m ms
    by_cases hx : p x = true
    · simp [hx, ih, List.filter_cons_of_pos hx]
    · simp [hx, ih, List.filter_cons_of_neg (by simpa using hx)]

/-- Second component of the reclassification fold: each moved skill is erased. -/
theorem foldl_move_snd (p : String → Bool) :
    ∀ (xs : List String) (m ms : List String),
      (xs.foldl (fun mm s => if p s = true then (mm.1 ++ [s], mm.2.erase s) else mm)
        (m, ms)).2 = (xs.filter p).foldl (fun l s => l.erase s) ms := by
  intro xs
  induction xs with
  | nil => intro m ms; simp
  | cons x xs ih =>
    intro m ms
    by_cases hx : p x = true
    · simp [hx, ih, List.filter_cons_of_pos hx]
    · simp [hx, ih, List.filter_cons_of_neg (by simpa using hx)]

/-- Erasing elements absent from the head commutes with the cons. -/
theorem foldl_erase_cons (a : String) :
    ∀ (ys ms : List String), (∀ x ∈ ys, x ≠ a) →
      ys.foldl (fun l s => l.erase s) (a :: ms) =
        a :: ys.foldl (fun l s => l.erase s) ms := by
  intro ys
  induction ys with
  | nil => intro ms _; rfl
  | cons y ys ih =>
    intro ms h
    have hya : ¬ (a == y) = true := by
      simp only [beq_iff_eq]
      exact fun e => h y (by simp) e.symm
    simp only [List.foldl_cons, List.erase_cons_tail hya]
    exact ih (ms.erase y) (fun x hx => h x (by simp [hx]))

/-- Erasing every filtered element from the original list leaves exactly the
complement filter. -/
theorem filter_foldl_erase (p : String → Bool) :
    ∀ l : List String,
      (l.filter p).foldl (fun acc s => acc.erase s) l = l.filter (fun s => ! p s) := by
  intro l
  induction l with
  | nil => rfl
  | cons a t ih =>
    by_cases hp : p a = true
    · rw [List.filter_cons_of_pos hp, List.foldl_cons, List.erase_cons_head,
        ih, List.filter_cons_of_neg (by simp [hp])]
    · rw [List.filter_cons_of_neg (by simpa using hp),
        List.filter_cons_of_pos (by simp [hp]),
        foldl_erase_cons a (t.filter p) t
          (fun x hx => fun e => hp (by rw [← e]; exact List.of_mem_filter hx)),
        ih]

/-- The reclassification loop of `SkillValidator.process` in closed form. -/
theorem reclassify_eq (sev : List (String × Evidence)) (matched0 missing0 : List String) :
    missing0.foldl (reclassifyStep sev) (matched0, missing0) =
      (matched0 ++ missing0.filter (evidenceMoved sev),
       missing0.filter (fun s => ! evidenceMoved sev s)) := by
  rw [List.foldl_ext (reclassifyStep sev)
    (fun mm s => if evidenceMoved sev s = true then (mm.1 ++ [s], mm.2.erase s) else mm)
    (matched0, missing0) (fun mm s _ => reclassifyStep_eq sev mm s)]
  refine Prod.ext ?_ ?_
  · exact foldl_move_fst (evidenceMoved sev) missing0 matched0 missing0
  · rw [foldl_move_snd (evidenceMoved sev) missing0 matched0 missing0]
    exact filter_foldl_erase (evidenceMoved sev) missing0

/-- C6: in a valid-token Stage 2 run, the final matched list is the initial
matched list followed (in order) by exactly those initially missing skills
whose evidence entry was found with confidence above 40; the final missing
list is the complement; an initially missing skill sits in the final matched
list iff `evidenceMoved` holds for it; and the reported score is the rounded
`min(base + bonus + boost, 100)` computed from the pre-reclassification
quantities only, so it is identical whether or not any skill is moved. -/
theorem c6_reclassification_after_scoring (env : ValEnv) (cd : CleanData)
    (jd tok : String) (vs : Option (String → Evidence)) (cid : String)
    (hTok : (validateCleanToken tok).1 = true) :
    (validatorProcess env cd jd tok vs cid).matchedSkills = some
      ((env.extractJobRequirements jd).requiredSkills.filter
        (fun s => (cd.skills.map strLower).contains (strLower s)) ++
       ((env.extractJobRequirements jd).requiredSkills.filter
        (fun s => ¬ (cd.skills.map strLower).contains (strLower s))).filter
        (evidenceMoved (skillEvidenceOf vs cid
          (env.extractJobRequirements jd).requiredSkills))) ∧
    (validatorProcess env cd jd tok vs cid).missingSkills = some
      (((env.extractJobRequirements jd).requiredSkills.filter
        (fun s => ¬ (cd.skills.map strLower).contains (strLower s))).filter
        (fun s => ! evidenceMoved (skillEvidenceOf vs cid
          (env.extractJobRequirements jd).requiredSkills) s)) ∧
    (∀ s ∈ (env.extractJobRequirements jd).requiredSkills.filter
        (fun s => ¬ (cd.skills.map strLower).contains (strLower s)),
      ∀ m, (validatorProcess env cd jd tok vs cid).matchedSkills = some m →
        (s ∈ m ↔ evidenceMoved (skillEvidenceOf vs cid
          (env.extractJobRequirements jd).requiredSkills) s = true)) ∧
    (validatorProcess env cd jd tok vs cid).score = pyRound (min
      (env.semanticScore cd.skills (env.extractJobRequirements jd).requiredSkills +
        calculateProjectBonus cd.projects (env.extractJobRequirements jd).requiredSkills +
        evidenceBoostOf (skillEvidenceOf vs cid
          (env.extractJobRequirements jd).requiredSkills)) 100) := by
  simp only [validatorProcess]
  rw [if_neg (not_not_intro hTok)]
  rw [reclassify_eq]
  refine ⟨rfl, rfl, ?_, rfl⟩
  intro s hs m hm
  have hsMissing : ¬ (cd.skills.map strLower).contains (strLower s) = true := by
    have := List.of_mem_filter hs
    simpa using this
  have hsNotMatched0 : s ∉ (env.extractJobRequirements jd).requiredSkills.filter
      (fun s => (cd.skills.map strLower).contains (strLower s)) := by
    intro hmem
    exact hsMissing (by simpa using List.of_mem_filter hmem)
  obtain rfl : ((env.extractJobRequirements jd).requiredSkills.filter
      (fun s => (cd.skills.map strLower).contains (strLower s)) ++
    ((env.extractJobRequirements jd).requiredSkills.filter
      (fun s => ¬ (cd.skills.map strLower).contains (strLower s))).filter
      (evidenceMoved (skillEvidenceOf vs cid
        (env.extractJobRequirements jd).requiredSkills))) = m := by
    injection hm
  constructor
  · intro hc
    rcases List.mem_append.mp hc with hmem | hmem
    · exact absurd hmem hsNotMatched0
    · exact List.of_mem_filter hmem
  · intro hmoved
    exact List.mem_append.mpr (Or.inr (List.mem_filter.mpr ⟨hs, hmoved⟩))

/-- Witness for C6 at the concrete validator instance. -/
theorem c6_reclassification_after_scoring_witness :
    (validateCleanToken "CLEAN-ABCD1234EFGH5678").1 = true ∧
    ((validatorProcess valEnvW cleanDataW "jd text" "CLEAN-ABCD1234EFGH5678"
        (some evidenceW) "CAND-X").matchedSkills = some
      ((valEnvW.extractJobRequirements "jd text").requiredSkills.filter
        (fun s => (cleanDataW.skills.map strLower).contains (strLower s)) ++
       ((valEnvW.extractJobRequirements "jd text").requiredSkills.filter
        (fun s => ¬ (cleanDataW.skills.map strLower).contains (strLower s))).filter
        (evidenceMoved (skillEvidenceOf (some evidenceW) "CAND-X"
          (valEnvW.extractJobRequirements "jd text").requiredSkills)))) := by
  have h := c6_reclassification_after_scoring valEnvW cleanDataW "jd text"
    "CLEAN-ABCD1234EFGH5678" (some evidenceW) "CAND-X" (by decide)
  exact ⟨by decide, h.1⟩

/-- The gatekeeper result on an ineligible submission, in closed form. -/
theorem gatekeeperProcess_fail (gkEnv : GkEnv) (raw : String) (minYears : ℚ)
    (hElig : gkEnv.extractYears raw < minYears) :
    gatekeeperProcess gkEnv raw minYears =
      ({ status := "FAIL",
         reason := (validateExperience gkEnv.fmt (gkEnv.extractYears raw) minYears).2,
         yearsExp := gkEnv.extractYears raw, cleanData := none,
         cleanDataFullText := none, cleanToken := none, biasFlags := [],
         redactionStats := none }, [GkOp.extractExperience]) := by
  have hv : (validateExperience gkEnv.fmt (gkEnv.extractYears raw) minYears).1 = false := by
    simp [validateExperience, not_le.mpr hElig]
  simp [gatekeeperProcess, hv]

/-- A generated candidate id is never the empty string. -/
theorem generateCandidateId_ne_empty (raw : String) : generateCandidateId raw ≠ "" := by
  unfold generateCandidateId
  intro h
  have hl := congrArg String.length h
  rw [string_length_append] at hl
  have h5 : "CAND-".length = 5 := by decide
  have h0 : "".length = 0 := rfl
  omega

/-- The effective candidate id backed by a generated id is never empty. -/
theorem pyOrStr_generated_ne_empty (cid : Option String) (raw : String) :
    pyOrStr cid (some (generateCandidateId raw)) ≠ "" := by
  cases cid with
  | none => simpa [pyOrStr] using generateCandidateId_ne_empty raw
  | some s =>
    by_cases hs : s = ""
    · simpa [pyOrStr, hs] using generateCandidateId_ne_empty raw
    · simp [pyOrStr, hs]

/-- Submitting answers against a run whose Stage 1 produced no clean data is
refused with a caller error and no state change. -/
theorem evaluate_no_clean_data (env : OrchEnv) (st : OrchState)
    (qa : List (String × String)) (cid : Option String) (cur : PipelineResult)
    (hcur : st.currentResult = some cur)
    (hcd : cur.agent1Res.cleanData = none)
    (hcid : pyOrStr cid st.currentCandidateId ≠ "") :
    evaluateCandidateAnswers env st qa cid =
      (.err "ERROR" "No clean data available from Agent 1", st, []) := by
  simp [evaluateCandidateAnswers, hcur, hcd, hcid]

/-- C2: when Stage 1 rejects (here because the eligibility check fails), the
run transitions immediately to the terminal Stage 1 rejection state
(`REJECTED_BY_AGENT_1`, the code's name for the spec's REJECTED_AT_STAGE_1):
Stages 2 and 3 are never invoked, no capability token is minted, no ledger
block is created, and a later answer submission against the run is refused
without sealing anything. -/
theorem c2_stage1_fail_short_circuit
    (gkEnv : GkEnv) (env : OrchEnv) (raw jd : String) (minYears : ℚ)
    (hElig : gkEnv.extractYears raw < minYears)
    (hAgent1 : env.agent1 raw minYears = .ok (gatekeeperProcess gkEnv raw minYears).1) :
    (runVerificationPipeline env raw jd minYears).1.finalStatus = "REJECTED_BY_AGENT_1" ∧
    (runVerificationPipeline env raw jd minYears).2.2 = [OrchEvent.agent1Invoked] ∧
    OrchEvent.agent2Invoked ∉ (runVerificationPipeline env raw jd minYears).2.2 ∧
    OrchEvent.agent3GenInvoked ∉ (runVerificationPipeline env raw jd minYears).2.2 ∧
    OrchEvent.ledgerBlockCreated ∉ (runVerificationPipeline env raw jd minYears).2.2 ∧
    (runVerificationPipeline env raw jd minYears).1.agent1Res.cleanToken = none ∧
    GkOp.generateToken ∉ (gatekeeperProcess gkEnv raw minYears).2 ∧
    (runVerificationPipeline env raw jd minYears).1.integrityBlock = none ∧
    (runVerificationPipeline env raw jd minYears).1.stageKeys = ["agent_1"] ∧
    ∀ (qa : List (String × String)) (cid : Option String),
      evaluateCandidateAnswers env (runVerificationPipeline env raw jd minYears).2.1 qa cid =
        (.err "ERROR" "No clean data available from Agent 1",
         (runVerificationPipeline env raw jd minYears).2.1, []) := by
  have ha1 := gatekeeperProcess_fail gkEnv raw minYears hElig
  have ha1' : (gatekeeperProcess gkEnv raw minYears).1 =
      { status := "FAIL",
        reason := (validateExperience gkEnv.fmt (gkEnv.extractYears raw) minYears).2,
        yearsExp := gkEnv.extractYears raw, cleanData := none,
        cleanDataFullText := none, cleanToken := none, biasFlags := [],
        redactionStats := none } := by rw [ha1]
  refine ⟨?_, ?_, ?_, ?_, ?_, ?_, ?_, ?_, ?_, ?_⟩
  · simp [runVerificationPipeline, hAgent1, ha1']
  · simp [runVerificationPipeline, hAgent1, ha1']
  · simp [runVerificationPipeline, hAgent1, ha1']
  · simp [runVerificationPipeline, hAgent1, ha1']
  · simp [runVerificationPipeline, hAgent1, ha1']
  · simp [runVerificationPipeline, hAgent1, ha1']
  · rw [ha1]; simp
  · simp [runVerificationPipeline, hAgent1, ha1']
  · simp [runVerificationPipeline, hAgent1, ha1']
  · intro qa cid
    have hcur : (runVerificationPipeline env raw jd minYears).2.1.currentResult =
        some (runVerificationPipeline env raw jd minYears).1 := by
      simp [runVerificationPipeline, hAgent1, ha1']
    have hcd : (runVerificationPipeline env raw jd minYears).1.agent1Res.cleanData = none := by
      simp [runVerificationPipeline, hAgent1, ha1']
    have hccid : (runVerificationPipeline env raw jd minYears).2.1.currentCandidateId =
        some (generateCandidateId raw) := by
      simp [runVerificationPipeline, hAgent1, ha1']
    exact evaluate_no_clean_data env _ qa cid _ hcur hcd
      (by rw [hccid]; exact pyOrStr_generated_ne_empty cid raw)

/-- Witness for C2: the concrete gatekeeper reporting half a year of
experience against a 2-year minimum, inside the concrete orchestrator. -/
theorem c2_stage1_fail_short_circuit_witness :
    gkEnvW.extractYears "resume" < 2 ∧
    orchEnvW.agent1 "resume" 2 = .ok (gatekeeperProcess gkEnvW "resume" 2).1 ∧
    ((runVerificationPipeline orchEnvW "resume" "jd" 2).1.finalStatus =
      "REJECTED_BY_AGENT_1" ∧
     (runVerificationPipeline orchEnvW "resume" "jd" 2).2.2 = [OrchEvent.agent1Invoked] ∧
     OrchEvent.agent2Invoked ∉ (runVerificationPipeline orchEnvW "resume" "jd" 2).2.2 ∧
     OrchEvent.agent3GenInvoked ∉ (runVerificationPipeline orchEnvW "resume" "jd" 2).2.2 ∧
     OrchEvent.ledgerBlockCreated ∉ (runVerificationPipeline orchEnvW "resume" "jd" 2).2.2 ∧
     (runVerificationPipeline orchEnvW "resume" "jd" 2).1.agent1Res.cleanToken = none ∧
     GkOp.generateToken ∉ (gatekeeperProcess gkEnvW "resume" 2).2 ∧
     (runVerificationPipeline orchEnvW "resume" "jd" 2).1.integrityBlock = none ∧
     (runVerificationPipeline orchEnvW "resume" "jd" 2).1.stageKeys = ["agent_1"] ∧
     ∀ (qa : List (String × String)) (cid : Option String),
       evaluateCandidateAnswers orchEnvW
           (runVerificationPipeline orchEnvW "resume" "jd" 2).2.1 qa cid =
         (.err "ERROR" "No clean data available from Agent 1",
          (runVerificationPipeline orchEnvW "resume" "jd" 2).2.1, [])) :=
  have h : gkEnvW.extractYears "resume" < 2 := by norm_num [gkEnvW]
  ⟨h, rfl, c2_stage1_fail_short_circuit gkEnvW orchEnvW "resume" "jd" 2 h rfl⟩

/-- C7 (amended): an internal exception in Agent 1 or Agent 2 is caught and
replaced by a synthetic FAIL result with reason `"<stage> error: <message>"`,
after which the run terminates at the corresponding rejection state; an
exception in Agent 3 question generation is caught into a FAIL stage result
with reason `"Agent 3 error: <message>"` but the run is still parked in
QUESTIONS_PENDING; an exception during answer evaluation is caught into a
synthetic result with status UNCERTAIN (not FAIL) and reason
`"Agent 3 evaluation error: <message>"`, and the run reaches the terminal
rejected state.  In no case does the exception escape: every call returns a
result. -/
theorem c7_stage_error_containment (env : OrchEnv) (raw jd : String) (minYears : ℚ)
    (msg : String) (st : OrchState) (qa : List (String × String)) (cidO : Option String) :
    (env.agent1 raw minYears = .error msg →
      ((runVerificationPipeline env raw jd minYears).1.agent1Status = "FAIL" ∧
       (runVerificationPipeline env raw jd minYears).1.agent1Reason =
         "Agent 1 error: " ++ msg ∧
       (runVerificationPipeline env raw jd minYears).1.finalStatus =
         "REJECTED_BY_AGENT_1")) ∧
    (∀ a1 : Agent1Result, env.agent1 raw minYears = .ok a1 → a1.status ≠ "FAIL" →
      (∀ cd j t, env.agent2 cd j t = .error msg) →
      ((runVerificationPipeline env raw jd minYears).1.agent2Status = some "FAIL" ∧
       (runVerificationPipeline env raw jd minYears).1.agent2Reason =
         some ("Agent 2 error: " ++ msg) ∧
       (runVerificationPipeline env raw jd minYears).1.finalStatus =
         "REJECTED_BY_AGENT_2")) ∧
    (∀ (a1 : Agent1Result) (a2 : Agent2Result),
      env.agent1 raw minYears = .ok a1 → a1.status ≠ "FAIL" →
      (∀ cd j t, env.agent2 cd j t = .ok a2) → a2.status ≠ "FAIL" →
      (∀ cd, env.agent3gen cd = .error msg) →
      ((runVerificationPipeline env raw jd minYears).1.agent3Questions =
        some { questions := [], status := "FAIL", reason := "Agent 3 error: " ++ msg } ∧
       (runVerificationPipeline env raw jd minYears).1.finalStatus =
         "QUESTIONS_PENDING")) ∧
    (∀ (cur : PipelineResult) (cd : CleanData),
      st.currentResult = some cur → cur.agent1Res.cleanData = some cd →
      pyOrStr cidO st.currentCandidateId ≠ "" →
      (∀ c q, env.agent3eval c q = .error msg) →
      ∃ cur', (evaluateCandidateAnswers env st qa cidO).2.1.currentResult = some cur' ∧
        cur'.agent3Eval = some
          { status := "UNCERTAIN"
            authenticityScore := 50
            reason := "Agent 3 evaluation error: " ++ msg
            redFlags := []
            individualScores := [] } ∧
        cur'.finalStatus = "❌ REJECTED") := by
  refine ⟨?_, ?_, ?_, ?_⟩
  · intro h
    refine ⟨?_, ?_, ?_⟩ <;> simp [runVerificationPipeline, h]
  · intro a1 h1 hns h2
    refine ⟨?_, ?_, ?_⟩ <;> simp [runVerificationPipeline, h1, h2, hns]
  · intro a1 a2 h1 hns1 h2 hns2 h3
    refine ⟨?_, ?_⟩ <;> simp [runVerificationPipeline, h1, h2, hns1, hns2, h3]
  · intro cur cd hcur hcd hcid heval
    simp only [evaluateCandidateAnswers, hcur, hcd]
    rw [if_neg hcid]
    simp only [heval]
    exact ⟨_, rfl, rfl, rfl⟩

/-- Witness for C7: the four error scenarios at the concrete orchestrator
variants, each raising `"boom"` at a different stage. -/
theorem c7_stage_error_containment_witness :
    ((runVerificationPipeline orchEnvErr1 "r" "j" 2).1.agent1Status = "FAIL" ∧
     (runVerificationPipeline orchEnvErr1 "r" "j" 2).1.agent1Reason =
       "Agent 1 error: " ++ "boom" ∧
     (runVerificationPipeline orchEnvErr1 "r" "j" 2).1.finalStatus =
       "REJECTED_BY_AGENT_1") ∧
    ((runVerificationPipeline orchEnvErr2 "r" "j" 2).1.agent2Status = some "FAIL" ∧
     (runVerificationPipeline orchEnvErr2 "r" "j" 2).1.agent2Reason =
       some ("Agent 2 error: " ++ "boom") ∧
     (runVerificationPipeline orchEnvErr2 "r" "j" 2).1.finalStatus =
       "REJECTED_BY_AGENT_2") ∧
    ((runVerificationPipeline orchEnvErr3 "r" "j" 2).1.agent3Questions =
      some { questions := [], status := "FAIL", reason := "Agent 3 error: " ++ "boom" } ∧
     (runVerificationPipeline orchEnvErr3 "r" "j" 2).1.finalStatus =
       "QUESTIONS_PENDING") ∧
    (∃ cur', (evaluateCandidateAnswers orchEnvErr4 stPendingW [] none).2.1.currentResult =
        some cur' ∧
      cur'.agent3Eval = some
        { status := "UNCERTAIN"
          authenticityScore := 50
          reason := "Agent 3 evaluation error: " ++ "boom"
          redFlags := []
          individualScores := [] } ∧
      cur'.finalStatus = "❌ REJECTED") :=
  ⟨(c7_stage_error_containment orchEnvErr1 "r" "j" 2 "boom" stPendingW [] none).1 rfl,
   (c7_stage_error_containment orchEnvErr2 "r" "j" 2 "boom" stPendingW [] none).2.1
     a1PassW rfl (by decide) (fun _ _ _ => rfl),
   (c7_stage_error_containment orchEnvErr3 "r" "j" 2 "boom" stPendingW [] none).2.2.1
     a1PassW agent2OkW rfl (by decide) (fun _ _ _ => rfl) (by decide) (fun _ => rfl),
   (c7_stage_error_containment orchEnvErr4 "r" "j" 2 "boom" stPendingW [] none).2.2.2
     prPendingW cleanDataW rfl rfl (by decide) (fun _ _ => rfl)⟩

/-- Counterexample to C7 as stated: when answer evaluation raises, the
substituted synthetic result has status `"UNCERTAIN"`, not the claimed
`"FAIL"`. -/
theorem c7_stage_error_containment_counterexample :
    (evaluateCandidateAnswers orchEnvErr4 stPendingW [] none).2.1.currentResult.map
      (fun r => r.agent3Eval.map Agent3Eval.status) = some (some "UNCERTAIN") ∧
    (evaluateCandidateAnswers orchEnvErr4 stPendingW [] none).2.1.currentResult.map
      (fun r => r.agent3Eval.map Agent3Eval.reason) =
      some (some "Agent 3 evaluation error: boom") ∧
    ("UNCERTAIN" : String) ≠ "FAIL" :=
  ⟨rfl, rfl, by decide⟩

/-- C8 (amended): `evaluate_candidate_answers` never checks that the run is in
QUESTIONS_PENDING and returns no INVALID_STATE error.  The only refusals are a
status-"ERROR" response (not an exception) when no active run exists (or the
effective candidate id is empty) and when the active run has no Stage 1 clean
data; in every other case — whatever the stored `final_status` — the call
proceeds: the evaluator runs and the stored state is overwritten with a
terminal approved/rejected status. -/
theorem c8_answers_accepted_without_state_check (env : OrchEnv) (st : OrchState)
    (qa : List (String × String)) (cidO : Option String) :
    (st.currentResult = none →
      evaluateCandidateAnswers env st qa cidO =
        (.err "ERROR" "No active verification pipeline", st, [])) ∧
    (pyOrStr cidO st.currentCandidateId = "" →
      evaluateCandidateAnswers env st qa cidO =
        (.err "ERROR" "No active verification pipeline", st, [])) ∧
    (∀ cur : PipelineResult, st.currentResult = some cur →
      cur.agent1Res.cleanData = none →
      pyOrStr cidO st.currentCandidateId ≠ "" →
      evaluateCandidateAnswers env st qa cidO =
        (.err "ERROR" "No clean data available from Agent 1", st, [])) ∧
    (∀ (cur : PipelineResult) (cd : CleanData), st.currentResult = some cur →
      cur.agent1Res.cleanData = some cd →
      pyOrStr cidO st.currentCandidateId ≠ "" →
      (OrchEvent.agent3EvalInvoked ∈ (evaluateCandidateAnswers env st qa cidO).2.2 ∧
       ∃ cur', (evaluateCandidateAnswers env st qa cidO).2.1.currentResult = some cur' ∧
         (cur'.finalStatus = "✅ APPROVED" ∨ cur'.finalStatus = "❌ REJECTED"))) := by
  refine ⟨?_, ?_, ?_, ?_⟩
  · intro h
    simp [evaluateCandidateAnswers, h]
  · intro h
    cases hc : st.currentResult with
    | none => simp [evaluateCandidateAnswers, hc]
    | some cur => simp [evaluateCandidateAnswers, hc, h]
  · intro cur hcur hcd hcid
    exact evaluate_no_clean_data env st qa cidO cur hcur hcd hcid
  · intro cur cd hcur hcd hcid
    simp only [evaluateCandidateAnswers, hcur, hcd]
    rw [if_neg hcid]
    refine ⟨by simp, ?_⟩
    refine ⟨_, rfl, ?_⟩
    by_cases hps : (match env.agent3eval cd qa with
      | .ok r => r
      | .error e =>
        { status := "UNCERTAIN"
          authenticityScore := 50
          reason := "Agent 3 evaluation error: " ++ e
          redFlags := []
          individualScores := [] }).status = "PASS"
    · left; simp [hps]
    · right; simp [hps]

/-- Witness for C8: the empty state is refused, and a run already terminal at
`REJECTED_BY_AGENT_2` is accepted and overwritten. -/
theorem c8_answers_accepted_without_state_check_witness :
    (evaluateCandidateAnswers orchEnvW { currentCandidateId := none, currentResult := none }
        [] none =
      (.err "ERROR" "No active verification pipeline",
       { currentCandidateId := none, currentResult := none }, [])) ∧
    (OrchEvent.agent3EvalInvoked ∈
       (evaluateCandidateAnswers orchEnvW stRejected2W [] none).2.2 ∧
     ∃ cur', (evaluateCandidateAnswers orchEnvW stRejected2W [] none).2.1.currentResult =
         some cur' ∧
       (cur'.finalStatus = "✅ APPROVED" ∨ cur'.finalStatus = "❌ REJECTED")) :=
  ⟨(c8_answers_accepted_without_state_check orchEnvW
      { currentCandidateId := none, currentResult := none } [] none).1 rfl,
   (c8_answers_accepted_without_state_check orchEnvW stRejected2W [] none).2.2.2
     prRejected2W cleanDataW rfl rfl (by decide)⟩

/-- Counterexample to C8 as stated: a run already terminal at
`REJECTED_BY_AGENT_2` (not QUESTIONS_PENDING) is accepted — the call returns a
full evaluation response rather than an INVALID_STATE error, and the stored
state is overwritten to `"✅ APPROVED"`. -/
theorem c8_answers_accepted_without_state_check_counterexample :
    prRejected2W.finalStatus = "REJECTED_BY_AGENT_2" ∧
    (evaluateCandidateAnswers orchEnvW stRejected2W [] none).1 =
      .done "CAND-1" "PASS" "ok" 90 [] "✅ APPROVED" "Passed all verification stages" none ∧
    (evaluateCandidateAnswers orchEnvW stRejected2W [] none).2.1.currentResult.map
      PipelineResult.finalStatus = some "✅ APPROVED" :=
  ⟨rfl, rfl, rfl⟩

/-- C1: sealing a snapshot `S` into a block and verifying against `S` itself
yields `verified = true`; verifying against a mutated snapshot whose canonical
hash differs yields `verified = false`; and in general `verified = true`
exactly when the recomputed canonical SHA-256 hash of the presented data
equals the block's stored `data_hash`. -/
theorem c1_seal_verify
    (agentId blockId ts cid : String) (prev : Option String) (S Sm D : Snapshot)
    (block : Block) (hm : computeHash Sm ≠ computeHash S) :
    (verifyIntegrity (createBlock agentId blockId ts cid S prev) S).1 = true ∧
    (verifyIntegrity (createBlock agentId blockId ts cid S prev) Sm).1 = false ∧
    ((verifyIntegrity block D).1 = true ↔ computeHash D = block.dataHash) := by
  refine ⟨by simp [verifyIntegrity, createBlock], ?_, ?_⟩
  · simp [verifyIntegrity, createBlock, Ne.symm hm]
  · unfold verifyIntegrity
    by_cases h : block.dataHash = computeHash D
    · simp [h]
    · simp only [h, if_false]
      exact iff_of_false (by simp) (fun e => h e.symm)

/-- Witness for C1: a concrete snapshot and its single-field mutation
(`agent_2_score` 85 → 90), with the real SHA-256 hashes evaluated. -/
theorem c1_seal_verify_witness :
    computeHash snapC1m ≠ computeHash snapC1 ∧
    ((verifyIntegrity (createBlock "Velos-v1" "blk-9" "2025-01-15T10:30:00Z" "CAND-12345"
        snapC1 none) snapC1).1 = true ∧
     (verifyIntegrity (createBlock "Velos-v1" "blk-9" "2025-01-15T10:30:00Z" "CAND-12345"
        snapC1 none) snapC1m).1 = false ∧
     ((verifyIntegrity (createBlock "Velos-v1" "blk-9" "2025-01-15T10:30:00Z" "CAND-12345"
        snapC1 none) snapC1).1 = true ↔
       computeHash snapC1 = (createBlock "Velos-v1" "blk-9" "2025-01-15T10:30:00Z" "CAND-12345"
        snapC1 none).dataHash)) :=
  have hm : computeHash snapC1m ≠ computeHash snapC1 := by decide
  ⟨hm, c1_seal_verify "Velos-v1" "blk-9" "2025-01-15T10:30:00Z" "CAND-12345" none
    snapC1 snapC1m snapC1 _ hm⟩

end Velos
